import Mathlib

/-!
Verification of the telegram-tracker bot against its specification.

The Python sources are shallowly embedded: dictionaries become association
lists, in-place mutation becomes explicit state passing, raised exceptions
become `Except` values that carry the (partially mutated) state at the point
of the raise, and the remote tracker / chat transport become oracles passed
in as function parameters.  Emitted messages and remote calls are recorded
as explicit event/notification values so that "exactly one notification"
style properties can be stated.
-/

namespace TrackerBot

/-! ## Association lists (embedding of Python dicts)

`getA` is `d.get(k)` / `d[k]`-style lookup (first matching key); `setA` is
`d[k] = v`: it overwrites the first occurrence in place, or appends. -/

def getA {α : Type} : List (String × α) → String → Option α
  | [], _ => none
  | (k', v) :: rest, k => if k' = k then some v else getA rest k

def setA {α : Type} : List (String × α) → String → α → List (String × α)
  | [], k, v => [(k, v)]
  | (k', v') :: rest, k, v =>
    if k' = k then (k, v) :: rest else (k', v') :: setA rest k v

theorem getA_setA_self {α : Type} (l : List (String × α)) (k : String) (v : α) :
    getA (setA l k v) k = some v := by
  induction l with
  | nil => simp [getA, setA]
  | cons p rest ih =>
    by_cases h : p.1 = k
    · simp [setA, getA, h]
    · simp [setA, getA, h, ih]

theorem getA_setA_ne {α : Type} (l : List (String × α)) (k k' : String) (v : α)
    (h : k' ≠ k) : getA (setA l k' v) k = getA l k := by
  induction l with
  | nil => simp [getA, setA, h]
  | cons p rest ih =>
    by_cases hp : p.1 = k'
    · simp [setA, getA, hp, h]
    · by_cases hpk : p.1 = k
      · simp [setA, getA, hp, hpk, Ne.symm h]
      · simp [setA, getA, hp, hpk, ih]

theorem map_fst_setA {α : Type} (l : List (String × α)) (k : String) (v : α)
    (hk : k ∈ l.map Prod.fst) :
    (setA l k v).map Prod.fst = l.map Prod.fst := by
  induction l with
  | nil => simp at hk
  | cons p rest ih =>
    by_cases h : p.1 = k
    · simp [setA, h]
    · have hk2 : k = p.1 ∨ ∃ x, (k, x) ∈ rest := by simpa using hk
      have hk' : k ∈ rest.map Prod.fst := by
        rcases hk2 with h1 | ⟨x, hx⟩
        · exact absurd h1.symm h
        · exact List.mem_map.mpr ⟨(k, x), hx, rfl⟩
      simp [setA, h, ih hk']

/-! ## Python string primitives -/

/-- `str.lower()` restricted to the alphabets this code base actually
compares: ASCII letters and the Russian alphabet (`А`-`Я` and `Ё`). -/
def pyLowerChar (c : Char) : Char :=
  if 'A' ≤ c ∧ c ≤ 'Z' then Char.ofNat (c.toNat + 32)
  else if 'А' ≤ c ∧ c ≤ 'Я' then Char.ofNat (c.toNat + 32)
  else if c = 'Ё' then 'ё'
  else c

def pyLower (s : String) : String := ⟨s.data.map pyLowerChar⟩

/-- `s[:n]` (character slice). -/
def pyTake (s : String) (n : Nat) : String := ⟨s.data.take n⟩

/-- Is `p` a (contiguous) prefix of `l`? -/
def isPrefixL : List Char → List Char → Bool
  | [], _ => true
  | _ :: _, [] => false
  | a :: as, b :: bs => a = b && isPrefixL as bs

/-- Does `needle` occur contiguously inside `hay`?  (Python `needle in hay`.) -/
def containsL (needle : List Char) : List Char → Bool
  | [] => isPrefixL needle []
  | c :: rest => isPrefixL needle (c :: rest) || containsL needle rest

/-- Python `sub in s` for strings. -/
def containsS (s sub : String) : Bool := containsL sub.data s.data

/-- Python `s.startswith(p)`. -/
def startsWithS (s p : String) : Bool := isPrefixL p.data s.data

theorem isPrefixL_take {p l : List Char} {n : Nat}
    (h : isPrefixL p l = true) (hn : p.length ≤ n) :
    isPrefixL p (l.take n) = true := by
  induction p generalizing l n with
  | nil => simp [isPrefixL]
  | cons a as ih =>
    cases l with
    | nil => simp [isPrefixL] at h
    | cons b bs =>
      simp [isPrefixL] at h
      cases n with
      | zero => simp at hn
      | succ m =>
        simp [List.take, isPrefixL, h.1]
        exact ih h.2 (Nat.le_of_succ_le_succ hn)

theorem containsL_of_isPrefixL {p l : List Char} (h : isPrefixL p l = true) :
    containsL p l = true := by
  cases l with
  | nil => simpa [containsL] using h
  | cons c rest => simp [containsL, h]

/-- Parse `int(s)` (sign plus decimal digits; `none` models `ValueError`). -/
def digitsVal (l : List Char) : Int :=
  l.foldl (fun acc c => 10 * acc + (Int.ofNat (c.toNat - '0'.toNat))) 0

def pyInt (s : String) : Option Int :=
  match s.data with
  | [] => none
  | '-' :: rest =>
    if rest ≠ [] ∧ rest.all Char.isDigit then some (-(digitsVal rest)) else none
  | l => if l ≠ [] ∧ l.all Char.isDigit then some (digitsVal l) else none

/-! ## Mapping Store data model (src/database.py)

A task entry is the dictionary built by `TaskDatabase.add_task`; fields that
only ever appear later (cursors, dm references) are `Option`s, matching the
`dict.get(key, default)` accesses in the source. -/

structure TaskEntry where
  chat_id : Int
  message_id : Int
  summary : String
  queue : String
  department : Option String
  creator_id : Option Int
  created_at : String
  status : String
  updated_at : Option String := none
  last_status_key : Option String := none
  last_assignee : Option String := none
  last_comment_count : Option Nat := none
  dm_chat_id : Option Int := none
  dm_message_id : Option Int := none
  deriving DecidableEq, Repr

/-- A value of the `users` table: `register_user` stores a per-user info
dict, while `add_task` stores a list of issue keys under the same table —
the source mixes both shapes in one dictionary. -/
inductive UserVal where
  | info (username : Option String) (first_name : String) (registered_at : String)
  | taskList (keys : List String)
  deriving DecidableEq, Repr

/-- The in-memory document `TaskDatabase.data`.  `_load_db` only ever
initializes `tasks`, `users` and `usernames`; `tasks` and `chats` can be
absent from a loaded document, hence the `Option`s. -/
structure DbData where
  tasks : Option (List (String × TaskEntry))
  chats : Option (List (String × List String))
  users : List (String × UserVal)
  usernames : List (String × Int)
  deriving DecidableEq, Repr

/-- Database object state: the in-memory document plus the persisted file
content (`none` = file does not exist). -/
structure DbState where
  data : DbData
  file : Option DbData
  deriving DecidableEq, Repr

/-- `_save_db`: rewrite the file from the in-memory document (the source's
best-effort write failure path only logs; the returned flag is ignored by
every caller modelled here). -/
def saveDb (st : DbState) : DbState := { st with file := some st.data }

/-- The fresh document `{'tasks': {}, 'users': {}, 'usernames': {}}` that
`_load_db` builds when the file is missing or unreadable.  Note: no `chats`
table. -/
def freshData : DbData :=
  { tasks := some [], chats := none, users := [], usernames := [] }

/-- A persisted JSON document as `_load_db` may find it: any of the four
tables can be absent. -/
structure RawDoc where
  tasks : Option (List (String × TaskEntry))
  chats : Option (List (String × List String))
  users : Option (List (String × UserVal))
  usernames : Option (List (String × Int))
  deriving DecidableEq, Repr

inductive LoadSource where
  | missing
  | unreadable
  | doc (d : RawDoc)

/-- The migration loop of `_load_db`: add `users`/`usernames` when absent,
then re-derive `usernames` from the per-user info dicts.  `none` models the
exceptions the loop can raise (`AttributeError` when a `users` value is a
task list, `ValueError` when `int(user_id)` fails), which `_load_db`
catches by falling back to a fresh document. -/
def migrateUsernames (users : List (String × UserVal)) (acc : List (String × Int)) :
    Option (List (String × Int)) :=
  users.foldlM (fun (acc : List (String × Int)) p =>
    match p.2 with
    | .taskList _ => none
    | .info uname _ _ =>
      match uname with
      | some s =>
        if s ≠ "" then
          match pyInt p.1 with
          | none => none
          | some i => some (setA acc s i)
        else some acc
      | none => some acc) acc

def migrateCore (d : RawDoc) : Option DbData :=
  match migrateUsernames (d.users.getD []) (d.usernames.getD []) with
  | none => none
  | some un =>
    some { tasks := d.tasks, chats := d.chats, users := d.users.getD [], usernames := un }

def migrate (d : RawDoc) : DbData := (migrateCore d).getD freshData

/-- `TaskDatabase._load_db` plus the resulting object state.  `prior` is
whatever the file held before (kept when the load does not write). -/
def loadDb : LoadSource → Option DbData → DbState
  | .missing, _ => { data := freshData, file := some freshData }
  | .unreadable, prior => { data := freshData, file := prior }
  | .doc d, prior => { data := migrate d, file := prior }

/-- `TaskDatabase.add_task`.  Exceptions (`KeyError` on a missing table,
`AttributeError` when a `users` value is an info dict) are returned as
`.error` carrying the state at the point of the raise — in Python the
in-place mutations done before the raise survive in memory. -/
def add_task (st : DbState) (issue_key : String) (chat_id message_id : Int)
    (summary queue : String) (department : Option String)
    (creator_id : Option Int) (now : String) :
    Except (String × DbState) (DbState × Bool) :=
  match st.data.tasks with
  | none => .error ("KeyError: 'tasks'", st)
  | some ts =>
    let entry : TaskEntry :=
      { chat_id := chat_id, message_id := message_id, summary := summary,
        queue := queue, department := department, creator_id := creator_id,
        created_at := now, status := "open" }
    let d1 := { st.data with tasks := some (setA ts issue_key entry) }
    match d1.chats with
    | none => .error ("KeyError: 'chats'", { st with data := d1 })
    | some cs =>
      let chat_key := toString chat_id
      let cs1 := match getA cs chat_key with
        | none => setA cs chat_key []
        | some _ => cs
      let cs2 := setA cs1 chat_key ((getA cs1 chat_key).getD [] ++ [issue_key])
      let d2 := { d1 with chats := some cs2 }
      match creator_id with
      | some c =>
        if c ≠ 0 then
          let user_key := toString c
          match getA d2.users user_key with
          | none =>
            let d3 := { d2 with users := setA d2.users user_key (.taskList [issue_key]) }
            .ok (saveDb { st with data := d3 }, true)
          | some (.taskList l) =>
            let d3 := { d2 with users := setA d2.users user_key (.taskList (l ++ [issue_key])) }
            .ok (saveDb { st with data := d3 }, true)
          | some (.info _ _ _) => .error ("AttributeError", { st with data := d2 })
        else .ok (saveDb { st with data := d2 }, true)
      | none => .ok (saveDb { st with data := d2 }, true)

/-- `TaskDatabase.get_task` (`self.data['tasks'].get(issue_key)`); the sync
paths that call it always run on states holding a `tasks` table. -/
def get_task (db : DbData) (issue_key : String) : Option TaskEntry :=
  getA (db.tasks.getD []) issue_key

/-- `TaskDatabase.register_user`.  Calling dict methods on a `users` value
that is a task list raises `AttributeError` (returned as `.error`). -/
def register_user (st : DbState) (user_id : Int) (username first_name now : String) :
    Except (String × DbState) DbState :=
  let user_key := toString user_id
  match getA st.data.users user_key with
  | some (.taskList _) => .error ("AttributeError", st)
  | _ =>
    let users2 := setA st.data.users user_key
      (.info (some (pyLower username)) first_name now)
    let d1 := { st.data with users := users2 }
    let d2 :=
      if username ≠ "" then
        { d1 with usernames := setA d1.usernames (pyLower username) user_id }
      else d1
    .ok (saveDb { st with data := d2 })

/-- `TaskDatabase.get_telegram_id_by_username`. -/
def get_telegram_id_by_username (db : DbData) (username : String) : Option Int :=
  getA db.usernames (pyLower username)

/-- Is the `users` value under this user id a task-key list? -/
def isTaskListV : Option UserVal → Bool
  | some (.taskList _) => true
  | _ => false

def usersNotTaskListB (db : DbData) (user_id : Int) : Bool :=
  !(isTaskListV (getA db.users (toString user_id)))

/-- Load sources whose resulting document has no `chats` table. -/
def chatsAbsentSource : LoadSource → Prop
  | .missing => True
  | .unreadable => True
  | .doc d => d.chats = none

theorem migrate_chats_none (d : RawDoc) (h : d.chats = none) :
    (migrate d).chats = none := by
  unfold migrate migrateCore
  cases migrateUsernames (d.users.getD []) (d.usernames.getD []) with
  | none => simp [freshData]
  | some un => simp [h]

theorem loadDb_chats_none (src : LoadSource) (prior : Option DbData)
    (h : chatsAbsentSource src) : (loadDb src prior).data.chats = none := by
  cases src with
  | missing => rfl
  | unreadable => rfl
  | doc d => exact migrate_chats_none d h

/-! ## Claim C9 -/

/-- C9 counterexample: loading a persisted document that lacks a `chats`
key (here: lacking every table), `add_task` raises `KeyError` on the
`tasks` table, not on `chats` as the claim states. -/
theorem c9_counterexample :
    add_task (loadDb (.doc ⟨none, none, none, none⟩) none) "HR-1" 1 1 "s" "HR"
        none none "t0"
      = .error ("KeyError: 'tasks'", loadDb (.doc ⟨none, none, none, none⟩) none)
    ∧ ("KeyError: 'tasks'" : String) ≠ "KeyError: 'chats'" :=
  ⟨rfl, by decide⟩

/-- C9 (amended): for every Mapping Store state produced by loading a
missing file, an unreadable file, or a persisted document lacking a
`chats` key, every call to `add_task` raises a `KeyError` before anything
is persisted (the file is unchanged, so no task entry is recorded); the
error is on the `chats` table whenever the loaded data has a `tasks`
table, and on `tasks` otherwise. -/
theorem c9_add_task_keyerror (src : LoadSource) (prior : Option DbData)
    (h : chatsAbsentSource src)
    (issue_key : String) (chat_id message_id : Int) (summary queue : String)
    (department : Option String) (creator_id : Option Int) (now : String) :
    ∃ m st',
      add_task (loadDb src prior) issue_key chat_id message_id summary queue
          department creator_id now = .error (m, st')
      ∧ st'.file = (loadDb src prior).file
      ∧ (m = "KeyError: 'tasks'" ∨ m = "KeyError: 'chats'")
      ∧ ((loadDb src prior).data.tasks ≠ none → m = "KeyError: 'chats'") := by
  have hch : (loadDb src prior).data.chats = none := loadDb_chats_none src prior h
  cases hts : (loadDb src prior).data.tasks with
  | none =>
    refine ⟨"KeyError: 'tasks'", loadDb src prior, ?_, rfl, .inl rfl, ?_⟩
    · simp only [add_task]
      rw [hts]
    · intro hcon
      exact absurd rfl hcon
  | some ts =>
    refine ⟨"KeyError: 'chats'",
      { loadDb src prior with
        data := { (loadDb src prior).data with
          tasks := some (setA ts issue_key
            { chat_id := chat_id, message_id := message_id, summary := summary,
              queue := queue, department := department, creator_id := creator_id,
              created_at := now, status := "open" }) } },
      ?_, rfl, .inr rfl, fun _ => rfl⟩
    simp only [add_task]
    rw [hts]
    simp only [hch]

/-- C9 witness: the amended statement applied at the missing-file load. -/
theorem c9_witness :
    chatsAbsentSource .missing
    ∧ ∃ m st',
        add_task (loadDb .missing none) "HR-1" 1 1 "s" "HR" none none "t0"
          = .error (m, st')
        ∧ st'.file = (loadDb .missing none).file
        ∧ (m = "KeyError: 'tasks'" ∨ m = "KeyError: 'chats'")
        ∧ ((loadDb .missing none).data.tasks ≠ none → m = "KeyError: 'chats'") :=
  ⟨trivial, c9_add_task_keyerror .missing none trivial "HR-1" 1 1 "s" "HR" none none "t0"⟩

/-! ## Claim C10 -/

theorem register_user_ok (st : DbState) (u : Int) (n fn now : String)
    (h : usersNotTaskListB st.data u = true) (hn : n ≠ "") :
    register_user st u n fn now = .ok (saveDb { st with data :=
      { st.data with
          users := setA st.data.users (toString u) (.info (some (pyLower n)) fn now),
          usernames := setA st.data.usernames (pyLower n) u } }) := by
  simp only [register_user]
  cases hg : getA st.data.users (toString u) with
  | none => simp [hn]
  | some v =>
    cases v with
    | taskList l => simp [usersNotTaskListB, hg, isTaskListV] at h
    | info a b c => simp [hn]

/-- C10: registering a non-empty username `n` for user `u` makes
`get_telegram_id_by_username` return `u` for every string equal to `n` up
to case, and a later registration of the same username (any casing) for
`u'` overwrites the mapping to `u'`. -/
theorem c10_register_user_roundtrip
    (st : DbState) (u u' : Int) (n fn now s n' fn' now' : String)
    (hn : n ≠ "") (hu : usersNotTaskListB st.data u = true)
    (hs : pyLower s = pyLower n)
    (hn' : n' ≠ "") (heq : pyLower n' = pyLower n)
    (hu' : toString u' = toString u ∨ usersNotTaskListB st.data u' = true) :
    ∃ st1 st2,
      register_user st u n fn now = .ok st1
      ∧ get_telegram_id_by_username st1.data s = some u
      ∧ register_user st1 u' n' fn' now' = .ok st2
      ∧ get_telegram_id_by_username st2.data s = some u' := by
  have h1 := register_user_ok st u n fn now hu hn
  set db1 : DbData :=
    { st.data with
        users := setA st.data.users (toString u) (.info (some (pyLower n)) fn now),
        usernames := setA st.data.usernames (pyLower n) u } with hdb1
  have hu1 : usersNotTaskListB db1 u' = true := by
    by_cases hts : toString u' = toString u
    · simp [usersNotTaskListB, hdb1, hts, getA_setA_self, isTaskListV]
    · have hne : toString u ≠ toString u' := fun hh => hts hh.symm
      have hget : getA db1.users (toString u') = getA st.data.users (toString u') := by
        simp only [hdb1]
        exact getA_setA_ne _ _ _ _ hne
      rcases hu' with hcase | hcase
      · exact absurd hcase hts
      · simpa [usersNotTaskListB, hget] using hcase
  have h2 := register_user_ok (saveDb { st with data := db1 }) u' n' fn' now' (by simpa using hu1) hn'
  refine ⟨_, _, h1, ?_, h2, ?_⟩
  · simp [get_telegram_id_by_username, saveDb, hdb1, hs, getA_setA_self]
  · simp [get_telegram_id_by_username, saveDb, hs, heq.symm, getA_setA_self]

/-- C10 witness: concrete registration round trip on a fresh store. -/
theorem c10_witness :
    (("Alice" : String) ≠ ""
      ∧ usersNotTaskListB (loadDb .missing none).data 10 = true
      ∧ pyLower "ALICE" = pyLower "Alice"
      ∧ ("alice" : String) ≠ ""
      ∧ pyLower "alice" = pyLower "Alice"
      ∧ (toString (20 : Int) = toString (10 : Int)
          ∨ usersNotTaskListB (loadDb .missing none).data 20 = true))
    ∧ ∃ st1 st2,
        register_user (loadDb .missing none) 10 "Alice" "A" "t1" = .ok st1
        ∧ get_telegram_id_by_username st1.data "ALICE" = some 10
        ∧ register_user st1 20 "alice" "B" "t2" = .ok st2
        ∧ get_telegram_id_by_username st2.data "ALICE" = some 20 :=
  ⟨⟨by decide, by decide, by decide, by decide, by decide, .inr (by decide)⟩,
    c10_register_user_roundtrip (loadDb .missing none) 10 20 "Alice" "A" "t1" "ALICE"
      "alice" "B" "t2" (by decide) (by decide) (by decide) (by decide) (by decide)
      (.inr (by decide))⟩

/-! ## Task creation flow (src/bot.py, `handle_message` and
`_handle_department_task`; src/config.py constants)

The remote create is an oracle `createFn : queue → Option issueKey`
standing for `YandexTrackerClient.create_issue`.  Modelled from the spec:
the gateway variant actually imported by bot.py accepts a `followers`
field on create (`POST /issues` body in the spec's interface list); the
drifted copy of `create_issue` under src/ lacks that parameter.  Outbound
remote calls and chat-transport sends are recorded as `Event`s. -/

def DEFAULT_PRIORITY : String := "critical"

def DEFAULT_QUEUE : String := "MNG"

structure DeptInfo where
  name : String
  queue : String
  assignee : Option String
  deriving DecidableEq, Repr

/-- `DEPARTMENT_MAPPING` from src/config.py (the per-entry `hashtag` field
is unused by the flows modelled here). -/
def DEPARTMENT_MAPPING : List (String × DeptInfo) :=
  [("mgr", ⟨"Менеджер", "MNG", none⟩),
   ("hr", ⟨"HR", "HR", none⟩),
   ("cc", ⟨"Колл-центр", "CC", none⟩),
   ("razrab", ⟨"Разработка", "RAZRAB", none⟩),
   ("owner", ⟨"Владелец", "OWNER", none⟩),
   ("buy", ⟨"Закупки", "BUYING", none⟩),
   ("comm", ⟨"Коммуникации", "COMM", none⟩),
   ("head", ⟨"Руководство", "HEAD", none⟩)]

/-- `DEPARTMENT_HASHTAGS` from src/config.py. -/
def DEPARTMENT_HASHTAGS : List (String × String) :=
  [("#mgr", "mgr"), ("#менедж", "mgr"), ("#менеджер", "mgr"),
   ("#hr", "hr"), ("#cc", "cc"), ("#razrab", "razrab"), ("#owner", "owner"),
   ("#buy", "buy"), ("#comm", "comm"), ("#head", "head")]

/-- `TrackerBot.get_departments_from_message`: every configured hashtag
found anywhere in the lower-cased text, deduplicated in first-appearance
order of the configuration table. -/
def get_departments_from_message (text : String) : List String :=
  let ml := pyLower text
  DEPARTMENT_HASHTAGS.foldl
    (fun acc p => if containsS ml p.1 && !(acc.contains p.2) then acc ++ [p.2] else acc)
    []

/-- Observable actions of the creation flow: remote create calls, replies
into the originating chat, private sends, and fan-out notifications. -/
inductive Event where
  | createCall (queue : String) (summary : String)
  | chatReply (text : String) (button : Bool)
  | dmSend (uid : Int) (text : String) (button : Bool)
  | notifySend (uid : Int) (text : String)
  deriving DecidableEq, Repr

structure CreatedIssue where
  key : String
  queue : String
  department : String
  deriving DecidableEq, Repr

/-- The per-department creation loop, bot.py lines 497-537: one remote
create per matched department; on success the issue is stored via
`add_task` immediately; a failed create just skips to the next
department.  Exceptions from `add_task` propagate (the handler has no
try/except around this loop). -/
def departmentTaskLoop (createFn : String → Option String)
    (chat_id message_id user_id : Int) (summary now : String) :
    List String → DbState →
    Except (String × DbState × List Event) (DbState × List Event × List CreatedIssue)
  | [], st => .ok (st, [], [])
  | d :: rest, st =>
    match getA DEPARTMENT_MAPPING d with
    | none => .error ("KeyError: department", st, [])
    | some info =>
      let ev := Event.createCall info.queue summary
      match createFn info.queue with
      | none =>
        match departmentTaskLoop createFn chat_id message_id user_id summary now rest st with
        | .ok (st', evs, cis) => .ok (st', ev :: evs, cis)
        | .error (m, st', evs) => .error (m, st', ev :: evs)
      | some k =>
        match add_task st k chat_id message_id summary info.queue (some d) (some user_id) now with
        | .error (m, st') => .error (m, st', [ev])
        | .ok (st', _) =>
          match departmentTaskLoop createFn chat_id message_id user_id summary now rest st' with
          | .ok (st'', evs, cis) => .ok (st'', ev :: evs, ⟨k, info.queue, info.name⟩ :: cis)
          | .error (m, st'', evs) => .error (m, st'', ev :: evs)

/-- The detailed confirmation built for the requester's private channel,
bot.py lines 630-640: title, priority, deadline, then every created key
with its direct link, enumerated from 1. -/
def buildManagerMessage (summary deadline : String) (created : List CreatedIssue) : String :=
  let base := "✅ Задача создана успешно!\n\n📝 Название: " ++ summary ++
    "\n⚠️ Приоритет: " ++ DEFAULT_PRIORITY ++ "\n📅 Дедлайн: " ++ deadline ++ "\n\n"
  (created.foldl
    (fun (acc : String × Nat) ci =>
      (acc.1 ++ toString acc.2 ++ ". 📋 " ++ ci.key ++ " (" ++ ci.department ++
        ")\n   🔗 https://tracker.yandex.ru/" ++ ci.key ++ "\n\n", acc.2 + 1))
    (base, 1)).1

/-- The fixed text posted in the originating chat when private delivery of
the detailed partner-flow confirmation fails, bot.py lines 662-665. -/
def dmFailFallbackText : String :=
  "⚠️ Не удалось отправить детали в ЛС.\nНачните диалог с ботом командой /start"

/-- Partner-flow delivery of the detailed confirmation, bot.py lines
651-666: try the requester's private channel; on failure post the fixed
warning (still carrying the mark-complete button) in the originating
chat. -/
def managerDmDelivery (dmOk : Bool) (user_id : Int) (managerMessage : String) : List Event :=
  if dmOk then [.dmSend user_id managerMessage true]
  else [.chatReply dmFailFallbackText true]

/-- The detailed private confirmation of the department-task flow, bot.py
lines 810-822. -/
def buildDeptDmMessage (summary deptName queue deadline : String)
    (photoCount : Nat) (issue_key : String) : String :=
  let base := "✅ Задача создана успешно!\n\n📝 Название: " ++ summary ++
    "\n🏢 Отдел: " ++ deptName ++ " (" ++ queue ++ ")\n⚠️ Приоритет: " ++
    DEFAULT_PRIORITY ++ "\n📅 Дедлайн: " ++ deadline ++ "\n"
  let base2 := if photoCount > 0 then base ++ "📎 Фото: " ++ toString photoCount ++ "\n" else base
  base2 ++ "\n📋 " ++ issue_key ++ "\n🔗 https://tracker.yandex.ru/" ++ issue_key

/-- Record of the dm reference bookkeeping on successful private delivery,
bot.py lines 840-842 (the entry is present: it was inserted by `add_task`
earlier in the same handler). -/
def setDmRefs (st : DbState) (issue_key : String) (dm_chat dm_msg : Int) : DbState :=
  match st.data.tasks with
  | none => st
  | some ts =>
    match getA ts issue_key with
    | none => st
    | some t =>
      { st with data := { st.data with tasks := some (setA ts issue_key
          { t with dm_chat_id := some dm_chat, dm_message_id := some dm_msg }) } }

/-- Department-flow delivery of the detailed confirmation, bot.py lines
833-850: on private success store the dm reference and save; on failure
post the same detailed message (with the mark-complete button) in the
originating chat. -/
def deptTaskDmDelivery (st : DbState) (dmOk : Bool) (user_id : Int)
    (issue_key dmMessage : String) (dmMessageId : Int) : DbState × List Event :=
  if dmOk then (saveDb (setDmRefs st issue_key user_id dmMessageId), [.dmSend user_id dmMessage true])
  else (st, [.chatReply dmMessage true])

/-- Confirmation fan-out of the partner flow, bot.py lines 624-679: short
reply in the chat, detailed message to the requester (with chat fallback),
copy to every configured notify recipient except the requester. -/
def partnerFlowConfirm (notifyAllIds : List Int) (user_id : Int)
    (summary deadline : String) (created : List CreatedIssue)
    (dmOk : Bool) (st : DbState) (evs : List Event) :
    Except (String × DbState × List Event) (DbState × List Event) :=
  let managerMsg := buildManagerMessage summary deadline created
  let dmEvs := managerDmDelivery dmOk user_id managerMsg
  let notifyEvs := (notifyAllIds.filter (fun i => i ≠ user_id)).map
    (fun i => Event.notifySend i ("📬 Партнёрская задача!\n\n" ++ managerMsg))
  .ok (st, evs ++ [Event.chatReply ("✅ Задача создана\n\n📝 " ++ summary) false] ++ dmEvs ++ notifyEvs)

/-- The privileged `#задача` flow of `handle_message` for a message with
no partner token (bot.py lines 495-537 and 585-685; the partner branch,
lines 539-583, is not entered when no partner id was extracted):
per-department creation loop, default-queue fallback when nothing was
created, then confirmation fan-out, or the failure reply carrying
`last_error`.  `notifyAllIds` models `NOTIFY_ALL_TASKS_IDS`, which bot.py
imports but src/config.py does not define (modelled from the spec's
"notify on all tasks" recipient set). -/
def handle_task_message_depts (createFn : String → Option String)
    (notifyAllIds : List Int) (lastError : String)
    (departments : List String) (st : DbState)
    (chat_id message_id user_id : Int) (summary deadline now : String)
    (dmOk : Bool) :
    Except (String × DbState × List Event) (DbState × List Event) :=
  match departmentTaskLoop createFn chat_id message_id user_id summary now departments st with
  | .error e => .error e
  | .ok (st', evs, created) =>
    if created = [] then
      let ev := Event.createCall DEFAULT_QUEUE summary
      match createFn DEFAULT_QUEUE with
      | none =>
        let err := if lastError ≠ "" then lastError else "Неизвестная ошибка"
        .ok (st', evs ++ [ev,
          Event.chatReply ("❌ Ошибка при создании задачи в Яндекс.Трекере.\n⚠️ Причина: " ++ err) false])
      | some k =>
        match add_task st' k chat_id message_id summary DEFAULT_QUEUE none (some user_id) now with
        | .error (m, st'') => .error (m, st'', evs ++ [ev])
        | .ok (st'', _) =>
          partnerFlowConfirm notifyAllIds user_id summary deadline
            [⟨k, DEFAULT_QUEUE, "Общая"⟩] dmOk st'' (evs ++ [ev])
    else
      partnerFlowConfirm notifyAllIds user_id summary deadline created dmOk st' evs

/-! ## Claim C1 -/

def c1CreateFn : String → Option String := fun q =>
  if q = "HR" then some "HR-1" else if q = "RAZRAB" then some "RAZRAB-1" else none

/-- C1 evaluation at the failing input: a privileged `#задача` message
tagged `#hr #razrab`, fresh store (database file absent), both remote
creates available.  The run makes exactly one remote create call, then
aborts with `KeyError: 'chats'` inside `add_task`; the persisted file
still holds the fresh empty document (no Mapping Store entry), and no
confirmation is ever sent — against the claimed 2 creates, 2 persisted
entries and one combined confirmation. -/
theorem c1_keyerror_run :
    get_departments_from_message "#задача Сделать отчёт #hr #razrab" = ["hr", "razrab"]
    ∧ ∃ st',
        handle_task_message_depts c1CreateFn [] "" ["hr", "razrab"]
            (loadDb .missing none) 100 1 8337630955 "Сделать отчёт" "2025-01-01" "t0" true
          = .error ("KeyError: 'chats'", st', [Event.createCall "HR" "Сделать отчёт"])
        ∧ st'.file = some freshData
        ∧ freshData.tasks = some [] :=
  ⟨by decide, ⟨_, rfl, rfl, rfl⟩⟩

/-! ## Claim C8 -/

/-- C8 counterexample: in the partner-task flow, when private delivery
fails, the message posted in the originating chat is the fixed warning
text, not the detailed confirmation — the created key appears in the
detailed message but not in what is actually posted. -/
theorem c8_counterexample :
    managerDmDelivery false 5
        (buildManagerMessage "Сводка" "2025-01-01" [⟨"PARTNERS-7", "PARTNERS", "Партнер WEB7"⟩])
      = [Event.chatReply dmFailFallbackText true]
    ∧ containsS
        (buildManagerMessage "Сводка" "2025-01-01" [⟨"PARTNERS-7", "PARTNERS", "Партнер WEB7"⟩])
        "PARTNERS-7" = true
    ∧ containsS dmFailFallbackText "PARTNERS-7" = false :=
  ⟨rfl, by decide, by decide⟩

/-- C8 (amended): when private delivery of the detailed confirmation
fails, the department-task flow re-posts the full detailed message in the
originating chat with the mark-complete button; the partner-task flow
posts only a short fixed warning there — still carrying the mark-complete
button, so the action is not lost, but the detailed key/link listing is
not re-posted in that flow. -/
theorem c8_fallback_behaviour :
    (∀ (st : DbState) (user_id : Int) (issue_key dmMessage : String) (dmMessageId : Int),
        deptTaskDmDelivery st false user_id issue_key dmMessage dmMessageId
          = (st, [Event.chatReply dmMessage true]))
    ∧ (∀ (user_id : Int) (managerMessage : String),
        managerDmDelivery false user_id managerMessage
          = [Event.chatReply dmFailFallbackText true]) :=
  ⟨fun _ _ _ _ _ => rfl, fun _ _ => rfl⟩

/-! ## Status-transition resolver (src/yandex_tracker.py,
`update_issue_status` and the error handling of `create_issue`)

The four HTTP interactions of one `update_issue_status` call are an
environment of `Except` transcripts (`.error` = `requests` raised); the
function returns its result, the gateway's `last_error` field after the
call, and the trace of remote actions and list searches it performed. -/

structure TransitionTo where
  key : Option String
  display : Option String
  deriving DecidableEq, Repr

structure Transition where
  id : String
  target : Option TransitionTo
  deriving DecidableEq, Repr

/-- `transition.get('to', {}).get('key', '').lower()` /
`...get('display', '').lower()` matched against an alias list. -/
def transMatches (aliases : List String) (t : Transition) : Bool :=
  let toObj := t.target
  let status_key := pyLower ((toObj.map (fun o => o.key.getD "")).getD "")
  let status_display := pyLower ((toObj.map (fun o => o.display.getD "")).getD "")
  aliases.contains status_key || aliases.contains status_display

/-- `target_statuses` of `update_issue_status`. -/
def TARGET_STATUSES : List String := ["closed", "resolved", "done", "завершена", "закрыта"]

/-- `progress_statuses` of `update_issue_status`. -/
def PROGRESS_STATUSES : List String := ["inprogress", "в работе"]

inductive TrackerAction where
  | fetchTransitions
  | searchTerminal
  | searchProgress
  | executeTransition (id : String)
  deriving DecidableEq, Repr

/-- Remote transcript for one `update_issue_status` call: the first
transitions fetch, the execute of the in-progress hop, the re-fetch, and
the final terminal execute. -/
structure TransitionsEnv where
  fetch1 : Except String (List Transition)
  execProgress : Except String Unit
  fetch2 : Except String (List Transition)
  execFinal : Except String Unit
  deriving Repr

/-- `YandexTrackerClient.update_issue_status`: fetch the available
transitions, search for a terminal one; if absent, search for an
in-progress one, execute it, re-fetch, and search for a terminal
transition exactly once more; execute the found transition with the fixed
resolution, else return `none`.  A `requests` exception at any hop is
caught by the outer handler, which logs and returns `none` — it never
writes `self.last_error`, so the field is threaded through unchanged. -/
def update_issue_status (env : TransitionsEnv) (last_error : String) :
    Option Unit × String × List TrackerAction :=
  match env.fetch1 with
  | .error _ => (none, last_error, [.fetchTransitions])
  | .ok ts1 =>
    match ts1.find? (transMatches TARGET_STATUSES) with
    | some t =>
      match env.execFinal with
      | .error _ => (none, last_error, [.fetchTransitions, .searchTerminal, .executeTransition t.id])
      | .ok _ => (some (), last_error, [.fetchTransitions, .searchTerminal, .executeTransition t.id])
    | none =>
      match ts1.find? (transMatches PROGRESS_STATUSES) with
      | none => (none, last_error, [.fetchTransitions, .searchTerminal, .searchProgress])
      | some pt =>
        match env.execProgress with
        | .error _ =>
          (none, last_error,
            [.fetchTransitions, .searchTerminal, .searchProgress, .executeTransition pt.id])
        | .ok _ =>
          match env.fetch2 with
          | .error _ =>
            (none, last_error,
              [.fetchTransitions, .searchTerminal, .searchProgress, .executeTransition pt.id,
               .fetchTransitions])
          | .ok ts2 =>
            match ts2.find? (transMatches TARGET_STATUSES) with
            | none =>
              (none, last_error,
                [.fetchTransitions, .searchTerminal, .searchProgress, .executeTransition pt.id,
                 .fetchTransitions, .searchTerminal])
            | some t2 =>
              match env.execFinal with
              | .error _ =>
                (none, last_error,
                  [.fetchTransitions, .searchTerminal, .searchProgress, .executeTransition pt.id,
                   .fetchTransitions, .searchTerminal, .executeTransition t2.id])
              | .ok _ =>
                (some (), last_error,
                  [.fetchTransitions, .searchTerminal, .searchProgress, .executeTransition pt.id,
                   .fetchTransitions, .searchTerminal, .executeTransition t2.id])

/-- Error body of a failed `create_issue` HTTP call, as read back from the
response JSON. -/
structure HttpErrBody where
  errorMessages : List String
  errors : List (String × String)
  deriving DecidableEq, Repr

/-- Outcome of the `create_issue` HTTP call.  For the error case, the
outer `Option` is whether the exception carried a response at all, the
inner one whether `response.json()` parsed. -/
inductive CreateOutcome where
  | ok (key : String)
  | err (msg : String) (response : Option (Option HttpErrBody))
  deriving Repr

/-- The error handling of `YandexTrackerClient.create_issue`, lines
89-104: on a `requests` exception, `last_error` is set to `str(e)`, then
refined to the joined `errorMessages` (or `errors`) of the response body
when one parses; on success `last_error` is left untouched. -/
def create_issue_result (outcome : CreateOutcome) (last_error : String) :
    Option String × String :=
  match outcome with
  | .ok k => (some k, last_error)
  | .err msg none => (none, msg)
  | .err msg (some none) => (none, msg)
  | .err msg (some (some b)) =>
    (none,
      if b.errorMessages ≠ [] then String.intercalate "; " b.errorMessages
      else if b.errors ≠ [] then
        String.intercalate "; " (b.errors.map (fun p => p.1 ++ ": " ++ p.2))
      else msg)

/-! ## Claim C3 -/

/-- C3: when the first transitions list has no terminal-alias match but
has an in-progress match whose execution succeeds, the resolver performs
exactly one re-fetch and exactly one second terminal search, then fails —
the exact action trace is two fetches and two terminal searches with a
single executed (in-progress) transition, and no further search or
invented transition follows. -/
theorem c3_two_hop_bounded_retry
    (env : TransitionsEnv) (le : String) (ts1 ts2 : List Transition) (pt : Transition)
    (h1 : env.fetch1 = .ok ts1)
    (hno1 : ts1.find? (transMatches TARGET_STATUSES) = none)
    (hpt : ts1.find? (transMatches PROGRESS_STATUSES) = some pt)
    (hexec : env.execProgress = .ok ())
    (h2 : env.fetch2 = .ok ts2)
    (hno2 : ts2.find? (transMatches TARGET_STATUSES) = none) :
    update_issue_status env le
      = (none, le,
        [.fetchTransitions, .searchTerminal, .searchProgress, .executeTransition pt.id,
         .fetchTransitions, .searchTerminal])
    ∧ ((update_issue_status env le).2.2.count TrackerAction.fetchTransitions = 2
        ∧ (update_issue_status env le).2.2.count TrackerAction.searchTerminal = 2
        ∧ (update_issue_status env le).1 = none) := by
  have hmain : update_issue_status env le
      = (none, le,
        [.fetchTransitions, .searchTerminal, .searchProgress, .executeTransition pt.id,
         .fetchTransitions, .searchTerminal]) := by
    simp only [update_issue_status, h1, hno1, hpt, hexec, h2, hno2]
  refine ⟨hmain, ?_⟩
  rw [hmain]
  refine ⟨?_, ?_, rfl⟩ <;> rfl

/-- C3 witness: a concrete workflow with one in-progress hop and no
terminal transition even after the hop. -/
theorem c3_witness :
    (let tProg : Transition := ⟨"11", some ⟨some "inProgress", some "В работе"⟩⟩
     let tOther : Transition := ⟨"12", some ⟨some "needInfo", some "Нужна информация"⟩⟩
     let env : TransitionsEnv := ⟨.ok [tOther, tProg], .ok (), .ok [tOther], .ok ()⟩
     update_issue_status env ""
       = (none, "",
         [.fetchTransitions, .searchTerminal, .searchProgress, .executeTransition "11",
          .fetchTransitions, .searchTerminal])) := by
  have h := c3_two_hop_bounded_retry
    ⟨.ok [⟨"12", some ⟨some "needInfo", some "Нужна информация"⟩⟩,
          ⟨"11", some ⟨some "inProgress", some "В работе"⟩⟩],
      .ok (), .ok [⟨"12", some ⟨some "needInfo", some "Нужна информация"⟩⟩], .ok ()⟩
    "" _ _ ⟨"11", some ⟨some "inProgress", some "В работе"⟩⟩
    rfl (by decide) (by decide) rfl rfl (by decide)
  exact h.1

/-! ## Claim C7 -/

/-- C7 counterexample: a transport failure on the very first hop returns
`none` with `last_error` left at its previous value (here empty) instead
of the transport error; the no-transition failure produces the exact same
`(result, last_error)` pair, so callers cannot distinguish the two. -/
theorem c7_counterexample :
    (update_issue_status ⟨.error "ConnectionError: timeout", .ok (), .ok [], .ok ()⟩ "").1 = none
    ∧ (update_issue_status ⟨.error "ConnectionError: timeout", .ok (), .ok [], .ok ()⟩ "").2.1 = ""
    ∧ ("" : String) ≠ "ConnectionError: timeout"
    ∧ ((update_issue_status ⟨.error "ConnectionError: timeout", .ok (), .ok [], .ok ()⟩ "").1,
        (update_issue_status ⟨.error "ConnectionError: timeout", .ok (), .ok [], .ok ()⟩ "").2.1)
      = ((update_issue_status ⟨.ok [], .ok (), .ok [], .ok ()⟩ "").1,
         (update_issue_status ⟨.ok [], .ok (), .ok [], .ok ()⟩ "").2.1) :=
  ⟨rfl, rfl, by decide, rfl⟩

/-- C7 (amended): `update_issue_status` never writes the gateway's
`last_error` — transport failures at any hop and the
no-transition-available case are all reported to callers as a bare `None`
with `last_error` unchanged, hence indistinguishable; only `create_issue`
surfaces the transport error (or the response's error messages) in
`last_error`, which `handle_message` reads to render the user-visible
creation-failure reason. -/
theorem c7_last_error_discipline :
    (∀ (env : TransitionsEnv) (le : String), (update_issue_status env le).2.1 = le)
    ∧ (∀ (msg le : String), create_issue_result (.err msg none) le = (none, msg))
    ∧ (∀ (k le : String), create_issue_result (.ok k) le = (some k, le)) := by
  refine ⟨?_, fun _ _ => rfl, fun _ _ => rfl⟩
  intro env le
  cases hf1 : env.fetch1 with
  | error e => simp [update_issue_status, hf1]
  | ok ts1 =>
    cases ht1 : ts1.find? (transMatches TARGET_STATUSES) with
    | some t =>
      cases hef : env.execFinal with
      | error e => simp [update_issue_status, hf1, ht1, hef]
      | ok u => simp [update_issue_status, hf1, ht1, hef]
    | none =>
      cases hp : ts1.find? (transMatches PROGRESS_STATUSES) with
      | none => simp [update_issue_status, hf1, ht1, hp]
      | some pt =>
        cases hep : env.execProgress with
        | error e => simp [update_issue_status, hf1, ht1, hp, hep]
        | ok u =>
          cases hf2 : env.fetch2 with
          | error e => simp [update_issue_status, hf1, ht1, hp, hep, hf2]
          | ok ts2 =>
            cases ht2 : ts2.find? (transMatches TARGET_STATUSES) with
            | none => simp [update_issue_status, hf1, ht1, hp, hep, hf2, ht2]
            | some t2 =>
              cases hef : env.execFinal with
              | error e => simp [update_issue_status, hf1, ht1, hp, hep, hf2, ht2, hef]
              | ok u2 => simp [update_issue_status, hf1, ht1, hp, hep, hf2, ht2, hef]

/-! ## Reconciliation engine (src/bot.py, `_periodic_sync_job` lines
963-1136 and `_notify_assignee`)

The remote tracker is an oracle: `issue` is `get_issue` (`none` when the
fetch failed or returned nothing), `comments` is the gateway's
comment-listing call.  Modelled from the spec: `get_comments`
(`GET /issues/{key}/comments` in the spec's interface list) is called by
bot.py but absent from src/yandex_tracker.py.  The configuration constants
`APPROVAL_STATUS_KEY`, `APPROVAL_NOTIFY_IDS` and `ASSIGNEE_TELEGRAM_MAP`
are imported by bot.py but not defined in src/config.py; they are modelled
from the spec as an abstract `SyncConfig`.  The date-triggered
overdue-reminder pass (lines 1138-1178) is one of the spec's adjacent
jobs, outside the change-detection cycle modelled here.  `_save_db` calls
inside the job persist the in-memory document; the detectors' state is
modelled at the document level. -/

structure StatusObj where
  key : Option String
  deriving DecidableEq, Repr

structure AssigneeObj where
  login : Option String
  display : Option String
  deriving DecidableEq, Repr

structure IssueData where
  status : Option StatusObj
  assignee : Option AssigneeObj
  deriving DecidableEq, Repr

structure Comment where
  text : String
  deriving DecidableEq, Repr

structure SyncConfig where
  approvalStatusKey : String
  approvalNotifyIds : List Int
  assigneeTelegramMap : List (String × String)

structure Remote where
  issue : String → Option IssueData
  comments : String → Option (List Comment)

/-- `COMPLETED_STATUSES` from src/config.py. -/
def COMPLETED_STATUSES : List String := ["closed", "resolved", "done", "завершена", "закрыта"]

/-- The fixed prefix of every comment relayed into the tracker by
`handle_reply_comment` (bot.py line 350); the sync job skips comments
containing it (line 1068). -/
def relayMarker : String := "💬 Комментарий от @"

/-- The comment body produced by `handle_reply_comment`, line 350. -/
def relayCommentText (username body : String) : String :=
  relayMarker ++ username ++ ":\n\n" ++ body

/-- Notifications emitted by the sync job, each tagged with the entity key
it concerns. -/
inductive Notif where
  | approval (recipient : Int) (key : String) (summary : String)
  | reassigned (creator : Int) (key : String) (newAssignee : String)
  | assigned (tgId : Int) (key : String) (login : String)
  | newComment (creator : Int) (key : String) (text : String)
  | closedNotice (creator : Int) (key : String)
  | dmCleared (dmChat dmMsg : Int) (key : String)
  deriving DecidableEq, Repr

def Notif.key : Notif → String
  | .approval _ k _ => k
  | .reassigned _ k _ => k
  | .assigned _ k _ => k
  | .newComment _ k _ => k
  | .closedNotice _ k => k
  | .dmCleared _ _ k => k

def Notif.kind : Notif → Nat
  | .approval _ _ _ => 0
  | .reassigned _ _ _ => 1
  | .assigned _ _ _ => 2
  | .newComment _ _ _ => 3
  | .closedNotice _ _ => 4
  | .dmCleared _ _ _ => 5

/-- `status_key`: `issue_data.get('status', {}).get('key', '').lower()`. -/
def statusKeyOf (iss : IssueData) : String :=
  match iss.status with
  | none => ""
  | some st => pyLower (st.key.getD "")

/-- Closure detection, lines 979-982 (`update_task_status` inlined: set
status and `updated_at`). -/
def statusUpdate (iss : IssueData) (t : TaskEntry) (now : String) : TaskEntry :=
  if COMPLETED_STATUSES.contains (statusKeyOf iss) then
    { t with status := "closed", updated_at := some now }
  else t

/-- Approval-stage detection, lines 984-1010: fan out to the configured
recipients when the status key just became the approval alias. -/
def approvalCheck (cfg : SyncConfig) (key status_key last_status summary : String) :
    List Notif :=
  if status_key = pyLower cfg.approvalStatusKey ∧ last_status ≠ pyLower cfg.approvalStatusKey
  then cfg.approvalNotifyIds.map (fun i => .approval i key summary)
  else []

/-- Cursor write of lines 1012-1015. -/
def lastStatusUpdate (iss : IssueData) (t1 : TaskEntry) : TaskEntry :=
  if statusKeyOf iss ≠ t1.last_status_key.getD "" then
    { t1 with last_status_key := some (statusKeyOf iss) }
  else t1

/-- `TrackerBot._notify_assignee` plus `_get_telegram_id_by_tracker_login`:
resolve the tracker login through the static login→handle table, then the
handle through the store's `usernames` table; empty/zero results drop the
notification. -/
def notify_assignee (assigneeTelegramMap : List (String × String))
    (usernames : List (String × Int)) (key login : String) : List Notif :=
  match getA assigneeTelegramMap login with
  | none => []
  | some h =>
    if h = "" then []
    else
      match getA usernames (pyLower h) with
      | none => []
      | some tid => if tid = 0 then [] else [.assigned tid key login]

/-- Assignee-change detection, lines 1017-1049: on any change cache the
new display name; notify the creator only for a genuine reassignment
(non-empty cache), and for a first assignment notify the assignee
instead. -/
def assigneeCheck (cfg : SyncConfig) (usernames : List (String × Int))
    (key : String) (t : TaskEntry) (aOpt : Option AssigneeObj) :
    TaskEntry × List Notif :=
  match aOpt with
  | none => (t, [])
  | some a =>
    let aLogin := a.login.getD ""
    let aName := a.display.getD aLogin
    let lastA := t.last_assignee.getD ""
    if aName ≠ "" ∧ aName ≠ lastA then
      let t' := { t with last_assignee := some aName }
      match t.creator_id with
      | some c =>
        if c ≠ 0 then
          if lastA ≠ "" then (t', [.reassigned c key aName])
          else (t', notify_assignee cfg.assigneeTelegramMap usernames key aLogin)
        else (t', [])
      | none => (t', [])
    else (t, [])

/-- New-comment detection, lines 1051-1090: when the remote count exceeds
the cached one, notify the creator of each new comment whose 200-character
preview does not carry the relay marker and is non-empty, then advance the
cached count to the new total. -/
def commentCheck (key : String) (t : TaskEntry) (commentsRes : Option (List Comment)) :
    TaskEntry × List Notif :=
  match commentsRes with
  | none => (t, [])
  | some l =>
    if l = [] then (t, [])
    else
      let lastC := t.last_comment_count.getD 0
      let cur := l.length
      if lastC < cur then
        let ns := (l.drop lastC).filterMap (fun c =>
          let txt := pyTake c.text 200
          if containsS txt relayMarker then none
          else
            match t.creator_id with
            | some cr => if cr ≠ 0 ∧ txt ≠ "" then some (.newComment cr key txt) else none
            | none => none)
        ({ t with last_comment_count := some cur }, ns)
      else (t, [])

/-- One open entity's pass through the four detectors (lines 975-1090),
returning the updated entry, the notifications in emission order, and
whether closure was detected. -/
def processOpenTask (cfg : SyncConfig) (usernames : List (String × Int))
    (iss : IssueData) (commentsRes : Option (List Comment))
    (key : String) (t : TaskEntry) (now : String) :
    TaskEntry × List Notif × Bool :=
  let t1 := statusUpdate iss t now
  let apNs := approvalCheck cfg key (statusKeyOf iss) (t1.last_status_key.getD "") t1.summary
  let t2 := lastStatusUpdate iss t1
  let r3 := assigneeCheck cfg usernames key t2 iss.assignee
  let r4 := commentCheck key r3.1 commentsRes
  (r4.1, apNs ++ r3.2 ++ r4.2, COMPLETED_STATUSES.contains (statusKeyOf iss))

/-- What the cycle does to one snapshot entry: closed entries and failed
fetches are skipped (lines 966-973), open ones run the detectors. -/
def syncEntryResult (cfg : SyncConfig) (usernames : List (String × Int))
    (remote : Remote) (key : String) (t : TaskEntry) (now : String) :
    TaskEntry × List Notif × Bool :=
  if t.status ≠ "open" then (t, [], false)
  else
    match remote.issue key with
    | none => (t, [], false)
    | some iss => processOpenTask cfg usernames iss (remote.comments key) key t now

def setTaskEntry (db : DbData) (key : String) (t : TaskEntry) : DbData :=
  { db with tasks := some (setA (db.tasks.getD []) key t) }

/-- One iteration of the per-entity loop: thread the document, the emitted
notifications, and the `closed_keys` accumulator. -/
def syncStep (cfg : SyncConfig) (remote : Remote) (now : String)
    (acc : DbData × List Notif × List String) (p : String × TaskEntry) :
    DbData × List Notif × List String :=
  if p.2.status ≠ "open" then acc
  else
    match remote.issue p.1 with
    | none => acc
    | some iss =>
      let r := processOpenTask cfg acc.1.usernames iss (remote.comments p.1) p.1 p.2 now
      (setTaskEntry acc.1 p.1 r.1, acc.2.1 ++ r.2.1, acc.2.2 ++ if r.2.2 then [p.1] else [])

/-- The per-closed-key fan-out of lines 1096-1133: retract the dm action
when a reference is recorded, then send the closure notice to the
creator. -/
def fanoutEntry (t : TaskEntry) (key : String) : List Notif :=
  match t.creator_id with
  | none => []
  | some c =>
    if c = 0 then []
    else
      (match t.dm_chat_id, t.dm_message_id with
       | some dc, some dm => if dc ≠ 0 ∧ dm ≠ 0 then [.dmCleared dc dm key] else []
       | _, _ => []) ++ [.closedNotice c key]

def closureFanout (db : DbData) (cks : List String) : List Notif :=
  (cks.map (fun k =>
    match get_task db k with
    | none => []
    | some t => fanoutEntry t k)).flatten

/-- One reconciliation cycle (`_periodic_sync_job` lines 963-1136): run
the detectors over a snapshot of the task table, then fan out the closure
notices. -/
def syncCycle (cfg : SyncConfig) (remote : Remote) (db : DbData) (now : String) :
    DbData × List Notif :=
  let all := db.tasks.getD []
  let r := all.foldl (syncStep cfg remote now) (db, [], [])
  (r.1, r.2.1 ++ closureFanout r.1 r.2.2)

/-! ### Detector output lemmas: every notification is tagged with the
processed entity's key, and each detector emits only its own kind. -/

theorem approvalCheck_mem (cfg : SyncConfig) (key sk ls sum : String) :
    ∀ n ∈ approvalCheck cfg key sk ls sum, n.key = key ∧ n.kind = 0 := by
  intro n hn
  unfold approvalCheck at hn
  split at hn
  · rcases List.mem_map.mp hn with ⟨i, _, rfl⟩
    exact ⟨rfl, rfl⟩
  · simp at hn

theorem notify_assignee_mem (m : List (String × String)) (un : List (String × Int))
    (key login : String) :
    ∀ n ∈ notify_assignee m un key login, n.key = key ∧ n.kind = 2 := by
  intro n hn
  unfold notify_assignee at hn
  split at hn
  · simp at hn
  · split at hn
    · simp at hn
    · split at hn
      · simp at hn
      · split at hn
        · simp at hn
        · simp at hn
          subst hn
          exact ⟨rfl, rfl⟩

theorem assigneeCheck_snd_mem (cfg : SyncConfig) (un : List (String × Int))
    (key : String) (t : TaskEntry) (aOpt : Option AssigneeObj) :
    ∀ n ∈ (assigneeCheck cfg un key t aOpt).2, n.key = key ∧ (n.kind = 1 ∨ n.kind = 2) := by
  intro n hn
  unfold assigneeCheck at hn
  cases aOpt with
  | none => simp at hn
  | some a =>
    dsimp only at hn
    split at hn
    · split at hn
      · split at hn
        · split at hn
          · simp at hn
            subst hn
            exact ⟨rfl, .inl rfl⟩
          · have := notify_assignee_mem cfg.assigneeTelegramMap un key (a.login.getD "") n hn
            exact ⟨this.1, .inr this.2⟩
        · simp at hn
      · simp at hn
    · simp at hn

theorem commentCheck_snd_mem (key : String) (t : TaskEntry)
    (cr : Option (List Comment)) :
    ∀ n ∈ (commentCheck key t cr).2, n.key = key ∧ n.kind = 3 := by
  intro n hn
  unfold commentCheck at hn
  cases cr with
  | none => simp at hn
  | some l =>
    dsimp only at hn
    split at hn
    · simp at hn
    · split at hn
      · rcases List.mem_filterMap.mp hn with ⟨c, _, hc⟩
        split at hc
        · simp at hc
        · split at hc
          · split at hc
            · simp at hc
              subst hc
              exact ⟨rfl, rfl⟩
            · simp at hc
          · simp at hc
      · simp at hn

theorem fanoutEntry_mem (t : TaskEntry) (k : String) :
    ∀ n ∈ fanoutEntry t k, n.key = k ∧ (n.kind = 4 ∨ n.kind = 5) := by
  intro n hn
  unfold fanoutEntry at hn
  split at hn
  · simp at hn
  · split at hn
    · simp at hn
    · rcases List.mem_append.mp hn with hn | hn
      · split at hn
        · split at hn
          · simp at hn
            subst hn
            exact ⟨rfl, .inr rfl⟩
          · simp at hn
        · simp at hn
      · simp at hn
        subst hn
        exact ⟨rfl, .inl rfl⟩

/-! ### Field-preservation lemmas for the detector chain -/

theorem statusUpdate_creator (iss : IssueData) (t : TaskEntry) (now : String) :
    (statusUpdate iss t now).creator_id = t.creator_id := by
  unfold statusUpdate; split <;> rfl

theorem statusUpdate_last_assignee (iss : IssueData) (t : TaskEntry) (now : String) :
    (statusUpdate iss t now).last_assignee = t.last_assignee := by
  unfold statusUpdate; split <;> rfl

theorem statusUpdate_last_comment_count (iss : IssueData) (t : TaskEntry) (now : String) :
    (statusUpdate iss t now).last_comment_count = t.last_comment_count := by
  unfold statusUpdate; split <;> rfl

theorem statusUpdate_status_closed (iss : IssueData) (t : TaskEntry) (now : String)
    (h : COMPLETED_STATUSES.contains (statusKeyOf iss) = true) :
    (statusUpdate iss t now).status = "closed" := by
  unfold statusUpdate
  rw [if_pos h]

theorem lastStatusUpdate_creator (iss : IssueData) (t1 : TaskEntry) :
    (lastStatusUpdate iss t1).creator_id = t1.creator_id := by
  unfold lastStatusUpdate; split <;> rfl

theorem lastStatusUpdate_status (iss : IssueData) (t1 : TaskEntry) :
    (lastStatusUpdate iss t1).status = t1.status := by
  unfold lastStatusUpdate; split <;> rfl

theorem lastStatusUpdate_last_assignee (iss : IssueData) (t1 : TaskEntry) :
    (lastStatusUpdate iss t1).last_assignee = t1.last_assignee := by
  unfold lastStatusUpdate; split <;> rfl

theorem lastStatusUpdate_last_comment_count (iss : IssueData) (t1 : TaskEntry) :
    (lastStatusUpdate iss t1).last_comment_count = t1.last_comment_count := by
  unfold lastStatusUpdate; split <;> rfl

theorem assigneeCheck_fst_creator (cfg : SyncConfig) (un : List (String × Int))
    (key : String) (t : TaskEntry) (aOpt : Option AssigneeObj) :
    (assigneeCheck cfg un key t aOpt).1.creator_id = t.creator_id := by
  unfold assigneeCheck
  cases aOpt with
  | none => rfl
  | some a =>
    dsimp only
    repeat' split
    all_goals rfl

theorem assigneeCheck_fst_status (cfg : SyncConfig) (un : List (String × Int))
    (key : String) (t : TaskEntry) (aOpt : Option AssigneeObj) :
    (assigneeCheck cfg un key t aOpt).1.status = t.status := by
  unfold assigneeCheck
  cases aOpt with
  | none => rfl
  | some a =>
    dsimp only
    repeat' split
    all_goals rfl

theorem assigneeCheck_fst_last_comment_count (cfg : SyncConfig) (un : List (String × Int))
    (key : String) (t : TaskEntry) (aOpt : Option AssigneeObj) :
    (assigneeCheck cfg un key t aOpt).1.last_comment_count = t.last_comment_count := by
  unfold assigneeCheck
  cases aOpt with
  | none => rfl
  | some a =>
    dsimp only
    repeat' split
    all_goals rfl

theorem commentCheck_fst_creator (key : String) (t : TaskEntry)
    (cr : Option (List Comment)) :
    (commentCheck key t cr).1.creator_id = t.creator_id := by
  unfold commentCheck
  cases cr with
  | none => rfl
  | some l =>
    dsimp only
    repeat' split
    all_goals rfl

theorem commentCheck_fst_status (key : String) (t : TaskEntry)
    (cr : Option (List Comment)) :
    (commentCheck key t cr).1.status = t.status := by
  unfold commentCheck
  cases cr with
  | none => rfl
  | some l =>
    dsimp only
    repeat' split
    all_goals rfl

theorem commentCheck_fst_last_assignee (key : String) (t : TaskEntry)
    (cr : Option (List Comment)) :
    (commentCheck key t cr).1.last_assignee = t.last_assignee := by
  unfold commentCheck
  cases cr with
  | none => rfl
  | some l =>
    dsimp only
    repeat' split
    all_goals rfl

/-! ### `processOpenTask` structure lemmas -/

theorem processOpenTask_fst_eq (cfg : SyncConfig) (un : List (String × Int))
    (iss : IssueData) (cr : Option (List Comment)) (key : String) (t : TaskEntry)
    (now : String) :
    (processOpenTask cfg un iss cr key t now).1
      = (commentCheck key
          (assigneeCheck cfg un key (lastStatusUpdate iss (statusUpdate iss t now)) iss.assignee).1
          cr).1 := rfl

theorem processOpenTask_snd_notifs (cfg : SyncConfig) (un : List (String × Int))
    (iss : IssueData) (cr : Option (List Comment)) (key : String) (t : TaskEntry)
    (now : String) :
    (processOpenTask cfg un iss cr key t now).2.1
      = approvalCheck cfg key (statusKeyOf iss)
          ((statusUpdate iss t now).last_status_key.getD "") (statusUpdate iss t now).summary
        ++ (assigneeCheck cfg un key (lastStatusUpdate iss (statusUpdate iss t now)) iss.assignee).2
        ++ (commentCheck key
            (assigneeCheck cfg un key (lastStatusUpdate iss (statusUpdate iss t now)) iss.assignee).1
            cr).2 := rfl

theorem processOpenTask_snd_flag (cfg : SyncConfig) (un : List (String × Int))
    (iss : IssueData) (cr : Option (List Comment)) (key : String) (t : TaskEntry)
    (now : String) :
    (processOpenTask cfg un iss cr key t now).2.2
      = COMPLETED_STATUSES.contains (statusKeyOf iss) := rfl

theorem processOpenTask_mem (cfg : SyncConfig) (un : List (String × Int))
    (iss : IssueData) (cr : Option (List Comment)) (key : String) (t : TaskEntry)
    (now : String) :
    ∀ n ∈ (processOpenTask cfg un iss cr key t now).2.1, n.key = key ∧ n.kind ≤ 3 := by
  intro n hn
  rw [processOpenTask_snd_notifs] at hn
  rcases List.mem_append.mp hn with hn | hn
  · rcases List.mem_append.mp hn with hn | hn
    · have := approvalCheck_mem cfg key _ _ _ n hn
      exact ⟨this.1, by omega⟩
    · have := assigneeCheck_snd_mem cfg un key _ iss.assignee n hn
      rcases this.2 with h2 | h2 <;> exact ⟨this.1, by omega⟩
  · have := commentCheck_snd_mem key _ cr n hn
    exact ⟨this.1, by omega⟩

theorem processOpenTask_fst_creator (cfg : SyncConfig) (un : List (String × Int))
    (iss : IssueData) (cr : Option (List Comment)) (key : String) (t : TaskEntry)
    (now : String) :
    (processOpenTask cfg un iss cr key t now).1.creator_id = t.creator_id := by
  rw [processOpenTask_fst_eq, commentCheck_fst_creator, assigneeCheck_fst_creator,
    lastStatusUpdate_creator, statusUpdate_creator]

theorem processOpenTask_fst_status_closed (cfg : SyncConfig) (un : List (String × Int))
    (iss : IssueData) (cr : Option (List Comment)) (key : String) (t : TaskEntry)
    (now : String) (h : COMPLETED_STATUSES.contains (statusKeyOf iss) = true) :
    (processOpenTask cfg un iss cr key t now).1.status = "closed" := by
  rw [processOpenTask_fst_eq, commentCheck_fst_status, assigneeCheck_fst_status,
    lastStatusUpdate_status, statusUpdate_status_closed _ _ _ h]

theorem syncEntryResult_mem (cfg : SyncConfig) (un : List (String × Int))
    (remote : Remote) (key : String) (t : TaskEntry) (now : String) :
    ∀ n ∈ (syncEntryResult cfg un remote key t now).2.1, n.key = key ∧ n.kind ≤ 3 := by
  intro n hn
  unfold syncEntryResult at hn
  split at hn
  · simp at hn
  · split at hn
    · simp at hn
    · exact processOpenTask_mem cfg un _ _ key t now n hn

/-! ### Filter and count helpers over notification lists -/

theorem filter_key_nil {l : List Notif} {key : String} (h : ∀ n ∈ l, n.key ≠ key) :
    l.filter (fun n => n.key == key) = [] := by
  induction l with
  | nil => rfl
  | cons a rest ih =>
    have ha : (a.key == key) = false := beq_eq_false_iff_ne.mpr (h a (by simp))
    simp only [List.filter_cons, ha, Bool.false_eq_true, if_false]
    exact ih (fun n hn => h n (by simp [hn]))

theorem filter_key_all {l : List Notif} {key : String} (h : ∀ n ∈ l, n.key = key) :
    l.filter (fun n => n.key == key) = l := by
  induction l with
  | nil => rfl
  | cons a rest ih =>
    have ha : (a.key == key) = true := beq_iff_eq.mpr (h a (by simp))
    simp only [List.filter_cons, ha, if_true]
    rw [ih (fun n hn => h n (by simp [hn]))]

theorem count_filter_of_key {l : List Notif} {x : Notif} :
    (l.filter (fun n => n.key == x.key)).count x = l.count x := by
  induction l with
  | nil => rfl
  | cons a rest ih =>
    by_cases ha : (a.key == x.key) = true
    · simp [List.filter_cons, ha, List.count_cons, ih]
    · have hax : (a == x) = false := by
        apply beq_eq_false_iff_ne.mpr
        intro he
        rw [he] at ha
        exact ha (by simp)
      simp [List.filter_cons, ha, List.count_cons, hax, ih]

/-! ### Per-step lemmas for the cycle fold -/

theorem syncStep_usernames (cfg : SyncConfig) (remote : Remote) (now : String)
    (acc : DbData × List Notif × List String) (p : String × TaskEntry) :
    (syncStep cfg remote now acc p).1.usernames = acc.1.usernames := by
  unfold syncStep
  split
  · rfl
  · split
    · rfl
    · rfl

theorem syncStep_frame (cfg : SyncConfig) (remote : Remote) (now : String)
    (acc : DbData × List Notif × List String) (p : String × TaskEntry) (key : String)
    (hne : p.1 ≠ key) :
    getA ((syncStep cfg remote now acc p).1.tasks.getD []) key
      = getA (acc.1.tasks.getD []) key := by
  unfold syncStep
  split
  · rfl
  · split
    · rfl
    · dsimp only [setTaskEntry]
      exact getA_setA_ne _ _ _ _ hne

theorem syncStep_notifs_filter (cfg : SyncConfig) (remote : Remote) (now : String)
    (acc : DbData × List Notif × List String) (p : String × TaskEntry) (key : String)
    (hne : p.1 ≠ key) :
    ((syncStep cfg remote now acc p).2.1).filter (fun n => n.key == key)
      = acc.2.1.filter (fun n => n.key == key) := by
  unfold syncStep
  split
  · rfl
  · split
    · rfl
    · rename_i iss heqq
      dsimp only
      have hz : ∀ n ∈ (processOpenTask cfg acc.1.usernames iss (remote.comments p.1) p.1 p.2 now).2.1,
          n.key ≠ key := by
        intro n hn2
        rw [(processOpenTask_mem _ _ _ _ _ _ _ n hn2).1]
        exact hne
      rw [List.filter_append, filter_key_nil hz, List.append_nil]

theorem syncStep_cks_count (cfg : SyncConfig) (remote : Remote) (now : String)
    (acc : DbData × List Notif × List String) (p : String × TaskEntry) (key : String)
    (hne : p.1 ≠ key) :
    ((syncStep cfg remote now acc p).2.2).count key = acc.2.2.count key := by
  unfold syncStep
  split
  · rfl
  · split
    · rfl
    · rename_i iss heqq
      dsimp only
      rw [List.count_append]
      have hz : (if (processOpenTask cfg acc.1.usernames iss (remote.comments p.1) p.1 p.2 now).2.2
          then [p.1] else []).count key = 0 := by
        split
        · simp [List.count_cons, beq_eq_false_iff_ne.mpr hne]
        · rfl
      rw [hz]
      exact Nat.add_zero _

theorem syncStep_map_fst (cfg : SyncConfig) (remote : Remote) (now : String)
    (acc : DbData × List Notif × List String) (p : String × TaskEntry)
    (hmem : p.1 ∈ (acc.1.tasks.getD []).map Prod.fst) :
    ((syncStep cfg remote now acc p).1.tasks.getD []).map Prod.fst
      = (acc.1.tasks.getD []).map Prod.fst := by
  unfold syncStep
  split
  · rfl
  · split
    · rfl
    · dsimp only [setTaskEntry]
      exact map_fst_setA _ _ _ hmem

/-! ### Fold lemmas -/

theorem foldl_sync_usernames (cfg : SyncConfig) (remote : Remote) (now : String) :
    ∀ (ps : List (String × TaskEntry)) (acc : DbData × List Notif × List String),
      (ps.foldl (syncStep cfg remote now) acc).1.usernames = acc.1.usernames := by
  intro ps
  induction ps with
  | nil => intro acc; rfl
  | cons p rest ih =>
    intro acc
    rw [List.foldl_cons, ih (syncStep cfg remote now acc p), syncStep_usernames]

theorem foldl_sync_frame (cfg : SyncConfig) (remote : Remote) (now key : String) :
    ∀ (ps : List (String × TaskEntry)) (acc : DbData × List Notif × List String),
      (∀ p ∈ ps, p.1 ≠ key) →
      getA ((ps.foldl (syncStep cfg remote now) acc).1.tasks.getD []) key
          = getA (acc.1.tasks.getD []) key
      ∧ ((ps.foldl (syncStep cfg remote now) acc).2.1).filter (fun n => n.key == key)
          = acc.2.1.filter (fun n => n.key == key)
      ∧ ((ps.foldl (syncStep cfg remote now) acc).2.2).count key = acc.2.2.count key := by
  intro ps
  induction ps with
  | nil => intro acc _; exact ⟨rfl, rfl, rfl⟩
  | cons p rest ih =>
    intro acc h
    have hp : p.1 ≠ key := h p (by simp)
    have hrest : ∀ q ∈ rest, q.1 ≠ key := fun q hq => h q (by simp [hq])
    have hi := ih (syncStep cfg remote now acc p) hrest
    rw [List.foldl_cons]
    exact ⟨hi.1.trans (syncStep_frame cfg remote now acc p key hp),
           hi.2.1.trans (syncStep_notifs_filter cfg remote now acc p key hp),
           hi.2.2.trans (syncStep_cks_count cfg remote now acc p key hp)⟩

theorem foldl_sync_map_fst (cfg : SyncConfig) (remote : Remote) (now : String) :
    ∀ (ps : List (String × TaskEntry)) (acc : DbData × List Notif × List String),
      (∀ p ∈ ps, p.1 ∈ (acc.1.tasks.getD []).map Prod.fst) →
      ((ps.foldl (syncStep cfg remote now) acc).1.tasks.getD []).map Prod.fst
        = (acc.1.tasks.getD []).map Prod.fst := by
  intro ps
  induction ps with
  | nil => intro acc _; rfl
  | cons p rest ih =>
    intro acc h
    have hp := h p (by simp)
    have hstep := syncStep_map_fst cfg remote now acc p hp
    have hrest : ∀ q ∈ rest, q.1 ∈ ((syncStep cfg remote now acc p).1.tasks.getD []).map Prod.fst := by
      intro q hq
      rw [hstep]
      exact h q (by simp [hq])
    rw [List.foldl_cons, ih (syncStep cfg remote now acc p) hrest, hstep]

theorem syncCycle_map_fst (cfg : SyncConfig) (remote : Remote) (db : DbData) (now : String) :
    ((syncCycle cfg remote db now).1.tasks.getD []).map Prod.fst
      = (db.tasks.getD []).map Prod.fst := by
  unfold syncCycle
  dsimp only
  exact foldl_sync_map_fst cfg remote now (db.tasks.getD []) (db, [], [])
    (fun p hp => List.mem_map.mpr ⟨p, hp, rfl⟩)

theorem syncCycle_usernames (cfg : SyncConfig) (remote : Remote) (db : DbData) (now : String) :
    (syncCycle cfg remote db now).1.usernames = db.usernames := by
  unfold syncCycle
  dsimp only
  exact foldl_sync_usernames cfg remote now (db.tasks.getD []) (db, [], [])

/-! ### Decomposition of an association list at a present key -/

theorem getA_decomp {α : Type} (l : List (String × α)) (key : String) (v : α)
    (h : getA l key = some v) :
    ∃ l1 l2, l = l1 ++ (key, v) :: l2 ∧ ∀ p ∈ l1, p.1 ≠ key := by
  induction l with
  | nil => simp [getA] at h
  | cons p rest ih =>
    by_cases hp : p.1 = key
    · refine ⟨[], rest, ?_, by simp⟩
      have hv : p.2 = v := by
        have := h
        simp only [getA, hp, if_pos] at this
        simpa using this
      cases p with
      | mk a b =>
        simp only [List.nil_append]
        simp at hp hv
        rw [hp, hv]
    · have h' : getA rest key = some v := by
        have := h
        simp only [getA, hp, if_neg, if_false] at this
        exact this
      obtain ⟨l1, l2, heq, hl1⟩ := ih h'
      refine ⟨p :: l1, l2, by simp [heq], ?_⟩
      intro q hq
      rcases List.mem_cons.mp hq with hq | hq
      · rw [hq]; exact hp
      · exact hl1 q hq

theorem nodup_decomp_right {α : Type} (l1 : List (String × α)) (key : String) (v : α)
    (l2 : List (String × α))
    (hnd : ((l1 ++ (key, v) :: l2).map Prod.fst).Nodup) :
    ∀ p ∈ l2, p.1 ≠ key := by
  intro p hp heq
  rw [List.map_append] at hnd
  have h2 : (((key, v) :: l2).map Prod.fst).Nodup := hnd.of_append_right
  rw [List.map_cons] at h2
  have hkey : key ∉ l2.map Prod.fst := (List.nodup_cons.mp h2).1
  exact hkey (List.mem_map.mpr ⟨p, hp, heq⟩)

/-! ### The closure fan-out, filtered to one key -/

theorem closureFanout_filter (d : DbData) (key : String) (tr : TaskEntry)
    (hres : get_task d key = some tr) :
    ∀ cks : List String,
      (closureFanout d cks).filter (fun n => n.key == key)
        = (List.replicate (cks.count key) (fanoutEntry tr key)).flatten := by
  intro cks
  induction cks with
  | nil => rfl
  | cons k rest ih =>
    by_cases hk : k = key
    · subst hk
      have hdef2 : closureFanout d (k :: rest) = fanoutEntry tr k ++ closureFanout d rest := by
        simp [closureFanout, hres]
      rw [hdef2, List.filter_append, ih,
        filter_key_all (fun n hn => (fanoutEntry_mem tr k n hn).1)]
      rw [List.count_cons_self, List.replicate_succ, List.flatten_cons]
    · have hdef2 : (closureFanout d (k :: rest)).filter (fun n => n.key == key)
          = (closureFanout d rest).filter (fun n => n.key == key) := by
        cases hg : get_task d k with
        | none => simp [closureFanout, hg]
        | some t' =>
          have hnil : (fanoutEntry t' k).filter (fun n => n.key == key) = [] :=
            filter_key_nil (fun n hn => by rw [(fanoutEntry_mem t' k n hn).1]; exact hk)
          simp [closureFanout, hg, List.filter_append, hnil]
      rw [hdef2, ih, List.count_cons, beq_eq_false_iff_ne.mpr hk]
      simp

/-! ### Master lemma: what one cycle does to a focused entity

With unique keys (a Python dict cannot hold duplicates), the cycle's
effect on entity `key` with snapshot entry `t` is exactly
`syncEntryResult`, and the notifications tagged with `key` are its
detector notifications followed by its closure fan-out when closure was
detected. -/

theorem syncCycle_focus (cfg : SyncConfig) (remote : Remote) (db : DbData)
    (now key : String) (t : TaskEntry)
    (hnd : ((db.tasks.getD []).map Prod.fst).Nodup)
    (hget : getA (db.tasks.getD []) key = some t) :
    getA ((syncCycle cfg remote db now).1.tasks.getD []) key
      = some (syncEntryResult cfg db.usernames remote key t now).1
    ∧ (syncCycle cfg remote db now).2.filter (fun n => n.key == key)
      = (syncEntryResult cfg db.usernames remote key t now).2.1
        ++ (if (syncEntryResult cfg db.usernames remote key t now).2.2
            then fanoutEntry (syncEntryResult cfg db.usernames remote key t now).1 key
            else []) := by
  obtain ⟨l1, l2, heq, hl1⟩ := getA_decomp (db.tasks.getD []) key t hget
  have hl2 : ∀ p ∈ l2, p.1 ≠ key := nodup_decomp_right l1 key t l2 (by rw [← heq]; exact hnd)
  unfold syncCycle
  dsimp only
  rw [heq, List.foldl_append, List.foldl_cons]
  have hf1 := foldl_sync_frame cfg remote now key l1 (db, [], []) hl1
  set acc1 := l1.foldl (syncStep cfg remote now) (db, [], []) with hacc1
  have hu1 : acc1.1.usernames = db.usernames :=
    foldl_sync_usernames cfg remote now l1 (db, [], [])
  have hg1 : getA (acc1.1.tasks.getD []) key = some t := hf1.1.trans hget
  have hfilter1 : acc1.2.1.filter (fun n => n.key == key) = [] := hf1.2.1
  have hcount1 : acc1.2.2.count key = 0 := hf1.2.2
  set res := syncEntryResult cfg db.usernames remote key t now with hresdef
  have hstep : getA ((syncStep cfg remote now acc1 (key, t)).1.tasks.getD []) key = some res.1
      ∧ ((syncStep cfg remote now acc1 (key, t)).2.1).filter (fun n => n.key == key) = res.2.1
      ∧ ((syncStep cfg remote now acc1 (key, t)).2.2).count key = (if res.2.2 then 1 else 0)
      ∧ (syncStep cfg remote now acc1 (key, t)).1.usernames = db.usernames := by
    by_cases hst : t.status ≠ "open"
    · have ha2 : syncStep cfg remote now acc1 (key, t) = acc1 := by
        unfold syncStep
        dsimp only
        rw [if_pos hst]
      have hr : res = (t, [], false) := by
        rw [hresdef]
        unfold syncEntryResult
        rw [if_pos hst]
      rw [ha2, hr]
      exact ⟨hg1, hfilter1, by simpa using hcount1, hu1⟩
    · cases hiss : remote.issue key with
      | none =>
        have ha2 : syncStep cfg remote now acc1 (key, t) = acc1 := by
          unfold syncStep
          dsimp only
          rw [if_neg hst, hiss]
        have hr : res = (t, [], false) := by
          rw [hresdef]
          unfold syncEntryResult
          rw [if_neg hst, hiss]
        rw [ha2, hr]
        exact ⟨hg1, hfilter1, by simpa using hcount1, hu1⟩
      | some iss =>
        have hPnorm : processOpenTask cfg acc1.1.usernames iss (remote.comments key) key t now
            = res := by
          rw [hu1, hresdef]
          unfold syncEntryResult
          rw [if_neg hst, hiss]
        have ha2 : syncStep cfg remote now acc1 (key, t)
            = (setTaskEntry acc1.1 key res.1,
               acc1.2.1 ++ res.2.1,
               acc1.2.2 ++ if res.2.2 then [key] else []) := by
          unfold syncStep
          dsimp only
          rw [if_neg hst, hiss]
          dsimp only
          rw [hPnorm]
        rw [ha2]
        refine ⟨?_, ?_, ?_, ?_⟩
        · dsimp only [setTaskEntry]
          exact getA_setA_self _ _ _
        · dsimp only
          rw [List.filter_append, hfilter1, List.nil_append]
          exact filter_key_all (fun n hn => (syncEntryResult_mem cfg db.usernames remote key t now n hn).1)
        · dsimp only
          rw [List.count_append, hcount1, Nat.zero_add]
          split
          · simp [List.count_cons]
          · rfl
        · dsimp only [setTaskEntry]
          exact hu1
  have hf2 := foldl_sync_frame cfg remote now key l2 (syncStep cfg remote now acc1 (key, t)) hl2
  set accF := l2.foldl (syncStep cfg remote now) (syncStep cfg remote now acc1 (key, t)) with haccF
  have hlook : getA (accF.1.tasks.getD []) key = some res.1 := hf2.1.trans hstep.1
  constructor
  · exact hlook
  · rw [List.filter_append, hf2.2.1, hstep.2.1]
    have hresF : get_task accF.1 key = some res.1 := hlook
    rw [closureFanout_filter accF.1 key res.1 hresF accF.2.2, hf2.2.2, hstep.2.2.1]
    split
    · simp
    · rfl

/-! ### Consequences of the master lemma -/

theorem mem_of_filter_key_nil {l : List Notif} {key : String}
    (h : l.filter (fun n => n.key == key) = []) :
    ∀ n ∈ l, n.key ≠ key := by
  intro n hn hk
  have hmem : n ∈ l.filter (fun n => n.key == key) :=
    List.mem_filter.mpr ⟨hn, by simp [hk]⟩
  rw [h] at hmem
  simp at hmem

/-- A closed entry is skipped by the cycle: it is left unchanged and no
notification tagged with its key is emitted. -/
theorem closed_entry_frozen (cfg : SyncConfig) (remote : Remote) (db : DbData)
    (now key : String) (t : TaskEntry)
    (hnd : ((db.tasks.getD []).map Prod.fst).Nodup)
    (hget : getA (db.tasks.getD []) key = some t)
    (hst : t.status = "closed") :
    getA ((syncCycle cfg remote db now).1.tasks.getD []) key = some t
    ∧ (syncCycle cfg remote db now).2.filter (fun n => n.key == key) = [] := by
  have h := syncCycle_focus cfg remote db now key t hnd hget
  have hr : syncEntryResult cfg db.usernames remote key t now = (t, [], false) := by
    unfold syncEntryResult
    rw [if_pos (by rw [hst]; decide)]
  rw [hr] at h
  exact ⟨h.1, by simpa using h.2⟩

theorem fanoutEntry_count_closed (t' : TaskEntry) (key : String) (c : Int)
    (hc : t'.creator_id = some c) (hc0 : c ≠ 0) :
    (fanoutEntry t' key).count (Notif.closedNotice c key) = 1 := by
  unfold fanoutEntry
  rw [hc]
  dsimp only
  rw [if_neg hc0]
  rw [List.count_append]
  have hdm : (match t'.dm_chat_id, t'.dm_message_id with
      | some dc, some dm => if dc ≠ 0 ∧ dm ≠ 0 then [Notif.dmCleared dc dm key] else []
      | _, _ => []).count (Notif.closedNotice c key) = 0 := by
    split
    · split
      · exact List.count_eq_zero.mpr (by simp)
      · rfl
    · rfl
  rw [hdm, Nat.zero_add]
  simp

theorem count_in_notifs_eq_filter (l : List Notif) (key : String) (x : Notif)
    (hx : x.key = key) :
    l.count x = (l.filter (fun n => n.key == key)).count x := by
  have h := count_filter_of_key (l := l) (x := x)
  rw [hx] at h
  exact h.symm

/-! ## Claim C2 -/

/-- C2: once an entity's local status is `closed`, a reconciliation cycle
neither changes its entry (in particular never back to `open`) nor emits
any notification for it; and for an open entity whose remote status is in
the completed-alias set, running the cycle twice with no intervening
remote change emits exactly one closure notification in the first run and
none in the second (guarded by the local status check). -/
theorem c2_closed_terminal_and_idempotent :
    (∀ (cfg : SyncConfig) (remote : Remote) (db : DbData) (now key : String) (t : TaskEntry),
        ((db.tasks.getD []).map Prod.fst).Nodup →
        getA (db.tasks.getD []) key = some t →
        t.status = "closed" →
        getA ((syncCycle cfg remote db now).1.tasks.getD []) key = some t
        ∧ ∀ n ∈ (syncCycle cfg remote db now).2, n.key ≠ key)
    ∧ (∀ (cfg : SyncConfig) (remote : Remote) (db : DbData) (now now2 key : String)
        (t : TaskEntry) (iss : IssueData) (c : Int),
        ((db.tasks.getD []).map Prod.fst).Nodup →
        getA (db.tasks.getD []) key = some t →
        t.status = "open" →
        remote.issue key = some iss →
        COMPLETED_STATUSES.contains (statusKeyOf iss) = true →
        t.creator_id = some c → c ≠ 0 →
        (syncCycle cfg remote db now).2.count (Notif.closedNotice c key) = 1
        ∧ (syncCycle cfg remote (syncCycle cfg remote db now).1 now2).2.count
            (Notif.closedNotice c key) = 0) := by
  constructor
  · intro cfg remote db now key t hnd hget hst
    have h := closed_entry_frozen cfg remote db now key t hnd hget hst
    exact ⟨h.1, mem_of_filter_key_nil h.2⟩
  · intro cfg remote db now now2 key t iss c hnd hget hopen hiss hcompl hc hc0
    have hfocus := syncCycle_focus cfg remote db now key t hnd hget
    have hres : syncEntryResult cfg db.usernames remote key t now
        = processOpenTask cfg db.usernames iss (remote.comments key) key t now := by
      unfold syncEntryResult
      rw [if_neg (fun hcon => hcon hopen), hiss]
    rw [hres] at hfocus
    have hflag : (processOpenTask cfg db.usernames iss (remote.comments key) key t now).2.2
        = true := by
      rw [processOpenTask_snd_flag]
      exact hcompl
    have hcreator : (processOpenTask cfg db.usernames iss (remote.comments key) key t now).1.creator_id
        = some c := by
      rw [processOpenTask_fst_creator]
      exact hc
    have hclosedst : (processOpenTask cfg db.usernames iss (remote.comments key) key t now).1.status
        = "closed" := processOpenTask_fst_status_closed cfg db.usernames iss _ key t now hcompl
    constructor
    · rw [count_in_notifs_eq_filter (syncCycle cfg remote db now).2 key
        (Notif.closedNotice c key) rfl, hfocus.2, hflag]
      rw [List.count_append]
      have hz : ((processOpenTask cfg db.usernames iss (remote.comments key) key t now).2.1).count
          (Notif.closedNotice c key) = 0 := by
        apply List.count_eq_zero.mpr
        intro hmem
        have := (processOpenTask_mem cfg db.usernames iss (remote.comments key) key t now _ hmem).2
        simp [Notif.kind] at this
      rw [hz, Nat.zero_add]
      simp only [if_true]
      exact fanoutEntry_count_closed _ key c hcreator hc0
    · have hnd2 : (((syncCycle cfg remote db now).1.tasks.getD []).map Prod.fst).Nodup := by
        rw [syncCycle_map_fst]
        exact hnd
      have hfrozen := closed_entry_frozen cfg remote (syncCycle cfg remote db now).1 now2 key
        (processOpenTask cfg db.usernames iss (remote.comments key) key t now).1 hnd2
        hfocus.1 hclosedst
      rw [count_in_notifs_eq_filter
        (syncCycle cfg remote (syncCycle cfg remote db now).1 now2).2 key
        (Notif.closedNotice c key) rfl, hfrozen.2]
      rfl

/-- C2 witness: one closed entity is untouched, and a cycle over one open
entity whose remote status is `closed` notifies exactly once across two
runs. -/
theorem c2_witness :
    (let tC : TaskEntry :=
      { chat_id := 1, message_id := 1, summary := "s", queue := "HR", department := some "hr",
        creator_id := some 7, created_at := "t", status := "closed" }
     let db : DbData := { tasks := some [("HR-1", tC)], chats := none, users := [], usernames := [] }
     let cfg : SyncConfig := ⟨"согласование", [], []⟩
     let remote : Remote := ⟨fun _ => none, fun _ => none⟩
     getA ((syncCycle cfg remote db "n").1.tasks.getD []) "HR-1" = some tC
      ∧ ∀ n ∈ (syncCycle cfg remote db "n").2, n.key ≠ "HR-1")
    ∧ (let tO : TaskEntry :=
        { chat_id := 1, message_id := 1, summary := "s", queue := "HR", department := some "hr",
          creator_id := some 7, created_at := "t", status := "open" }
       let db : DbData := { tasks := some [("HR-1", tO)], chats := none, users := [], usernames := [] }
       let cfg : SyncConfig := ⟨"согласование", [], []⟩
       let remote : Remote :=
        ⟨fun _ => some { status := some { key := some "closed" }, assignee := none }, fun _ => none⟩
       (syncCycle cfg remote db "n").2.count (Notif.closedNotice 7 "HR-1") = 1
        ∧ (syncCycle cfg remote (syncCycle cfg remote db "n").1 "n2").2.count
            (Notif.closedNotice 7 "HR-1") = 0) := by
  constructor
  · exact c2_closed_terminal_and_idempotent.1 _ _ _ "n" "HR-1" _ (by decide) rfl rfl
  · exact c2_closed_terminal_and_idempotent.2 _ _ _ "n" "n2" "HR-1" _
      { status := some { key := some "closed" }, assignee := none } 7
      (by decide) rfl rfl rfl (by decide) rfl (by decide)

/-! ## Claim C5 -/

/-- C5: when the remote fetch for an open entity fails or returns nothing,
the cycle leaves that entity's entry — status and all cursors — unchanged
and emits no notification for it. -/
theorem c5_failed_fetch_frame (cfg : SyncConfig) (remote : Remote) (db : DbData)
    (now key : String) (t : TaskEntry)
    (hnd : ((db.tasks.getD []).map Prod.fst).Nodup)
    (hget : getA (db.tasks.getD []) key = some t)
    (hopen : t.status = "open")
    (hfail : remote.issue key = none) :
    getA ((syncCycle cfg remote db now).1.tasks.getD []) key = some t
    ∧ ∀ n ∈ (syncCycle cfg remote db now).2, n.key ≠ key := by
  have h := syncCycle_focus cfg remote db now key t hnd hget
  have hr : syncEntryResult cfg db.usernames remote key t now = (t, [], false) := by
    unfold syncEntryResult
    rw [if_neg (fun hcon => hcon hopen), hfail]
  rw [hr] at h
  exact ⟨h.1, mem_of_filter_key_nil (by simpa using h.2)⟩

/-- C5 witness: transport failure for `DEV-9` leaves its cursors and
status untouched and produces no notification for it. -/
theorem c5_witness :
    (let t9 : TaskEntry :=
      { chat_id := 1, message_id := 1, summary := "s", queue := "DEV", department := none,
        creator_id := some 7, created_at := "t", status := "open",
        last_assignee := some "A", last_comment_count := some 2 }
     let db : DbData := { tasks := some [("DEV-9", t9)], chats := none, users := [], usernames := [] }
     let cfg : SyncConfig := ⟨"согласование", [], []⟩
     let remote : Remote := ⟨fun _ => none, fun _ => none⟩
     getA ((syncCycle cfg remote db "n").1.tasks.getD []) "DEV-9" = some t9
      ∧ ∀ n ∈ (syncCycle cfg remote db "n").2, n.key ≠ "DEV-9") := by
  exact c5_failed_fetch_frame _ _ _ "n" "DEV-9" _ (by decide) rfl rfl rfl

/-! ### Assignee-detector computation lemmas -/

theorem notify_assignee_eq (m : List (String × String)) (un : List (String × Int))
    (key login handle : String) (tid : Int)
    (hm : getA m login = some handle) (hh : handle ≠ "")
    (hid : getA un (pyLower handle) = some tid) (ht : tid ≠ 0) :
    notify_assignee m un key login = [.assigned tid key login] := by
  unfold notify_assignee
  rw [hm]
  dsimp only
  rw [if_neg hh, hid]
  dsimp only
  rw [if_neg ht]

theorem assigneeCheck_first (cfg : SyncConfig) (un : List (String × Int))
    (key : String) (t : TaskEntry) (a : AssigneeObj) (c : Int)
    (hname : a.display.getD (a.login.getD "") ≠ "")
    (hcache : t.last_assignee.getD "" = "")
    (hc : t.creator_id = some c) (hc0 : c ≠ 0) :
    assigneeCheck cfg un key t (some a)
      = ({ t with last_assignee := some (a.display.getD (a.login.getD "")) },
         notify_assignee cfg.assigneeTelegramMap un key (a.login.getD "")) := by
  unfold assigneeCheck
  dsimp only
  rw [hcache]
  rw [if_pos ⟨hname, hname⟩]
  rw [hc]
  dsimp only
  rw [if_pos hc0, if_neg (fun hcon => hcon rfl)]

theorem assigneeCheck_reassign (cfg : SyncConfig) (un : List (String × Int))
    (key : String) (t : TaskEntry) (a : AssigneeObj) (c : Int) (prev : String)
    (hname : a.display.getD (a.login.getD "") ≠ "")
    (hcache : t.last_assignee.getD "" = prev)
    (hprev : prev ≠ "")
    (hdiff : a.display.getD (a.login.getD "") ≠ prev)
    (hc : t.creator_id = some c) (hc0 : c ≠ 0) :
    assigneeCheck cfg un key t (some a)
      = ({ t with last_assignee := some (a.display.getD (a.login.getD "")) },
         [.reassigned c key (a.display.getD (a.login.getD ""))]) := by
  unfold assigneeCheck
  dsimp only
  rw [hcache]
  rw [if_pos ⟨hname, hdiff⟩]
  rw [hc]
  dsimp only
  rw [if_pos hc0, if_pos hprev]

theorem approvalCheck_count_assigned (cfg : SyncConfig) (key sk ls sum : String)
    (tid : Int) (k' lg : String) :
    (approvalCheck cfg key sk ls sum).count (Notif.assigned tid k' lg) = 0 :=
  List.count_eq_zero.mpr (fun hm => by
    have := (approvalCheck_mem cfg key sk ls sum _ hm).2
    simp [Notif.kind] at this)

theorem approvalCheck_count_reassigned (cfg : SyncConfig) (key sk ls sum : String)
    (c : Int) (k' nm : String) :
    (approvalCheck cfg key sk ls sum).count (Notif.reassigned c k' nm) = 0 :=
  List.count_eq_zero.mpr (fun hm => by
    have := (approvalCheck_mem cfg key sk ls sum _ hm).2
    simp [Notif.kind] at this)

theorem commentCheck_count_assigned (key : String) (te : TaskEntry)
    (cr : Option (List Comment)) (tid : Int) (k' lg : String) :
    ((commentCheck key te cr).2).count (Notif.assigned tid k' lg) = 0 :=
  List.count_eq_zero.mpr (fun hm => by
    have := (commentCheck_snd_mem key te cr _ hm).2
    simp [Notif.kind] at this)

theorem commentCheck_count_reassigned (key : String) (te : TaskEntry)
    (cr : Option (List Comment)) (c : Int) (k' nm : String) :
    ((commentCheck key te cr).2).count (Notif.reassigned c k' nm) = 0 :=
  List.count_eq_zero.mpr (fun hm => by
    have := (commentCheck_snd_mem key te cr _ hm).2
    simp [Notif.kind] at this)

theorem fanout_ite_count_assigned (b : Bool) (t' : TaskEntry) (key : String)
    (tid : Int) (k' lg : String) :
    (if b then fanoutEntry t' key else []).count (Notif.assigned tid k' lg) = 0 := by
  split
  · exact List.count_eq_zero.mpr (fun hm => by
      rcases (fanoutEntry_mem t' key _ hm).2 with h | h <;> simp [Notif.kind] at h)
  · rfl

theorem fanout_ite_count_reassigned (b : Bool) (t' : TaskEntry) (key : String)
    (c : Int) (k' nm : String) :
    (if b then fanoutEntry t' key else []).count (Notif.reassigned c k' nm) = 0 := by
  split
  · exact List.count_eq_zero.mpr (fun hm => by
      rcases (fanoutEntry_mem t' key _ hm).2 with h | h <;> simp [Notif.kind] at h)
  · rfl

/-! ## Claim C4 -/

/-- C4: assignee-change detection.  First observed assignee: exactly one
"assigned to you" notification to the assignee (resolved through the
static login→handle table and the store's handle→id index) and none to
the creator, with the cache set to the new value.  Reassignment (cache
non-empty): exactly one reassignment notification to the creator and none
to the assignee, with the cache updated. -/
theorem c4_assignee_change_detection :
    (∀ (cfg : SyncConfig) (remote : Remote) (db : DbData) (now key : String)
        (t : TaskEntry) (iss : IssueData) (a : AssigneeObj)
        (login name handle : String) (c tid : Int),
        ((db.tasks.getD []).map Prod.fst).Nodup →
        getA (db.tasks.getD []) key = some t →
        t.status = "open" →
        remote.issue key = some iss →
        iss.assignee = some a →
        a.login.getD "" = login →
        a.display.getD login = name →
        name ≠ "" →
        t.last_assignee.getD "" = "" →
        t.creator_id = some c → c ≠ 0 →
        getA cfg.assigneeTelegramMap login = some handle → handle ≠ "" →
        getA db.usernames (pyLower handle) = some tid → tid ≠ 0 →
        ((syncCycle cfg remote db now).2.count (Notif.assigned tid key login) = 1
          ∧ (∀ (c' : Int) (nm : String), Notif.reassigned c' key nm ∉ (syncCycle cfg remote db now).2)
          ∧ ∃ t', getA ((syncCycle cfg remote db now).1.tasks.getD []) key = some t'
              ∧ t'.last_assignee = some name))
    ∧ (∀ (cfg : SyncConfig) (remote : Remote) (db : DbData) (now key : String)
        (t : TaskEntry) (iss : IssueData) (a : AssigneeObj)
        (login name prev : String) (c : Int),
        ((db.tasks.getD []).map Prod.fst).Nodup →
        getA (db.tasks.getD []) key = some t →
        t.status = "open" →
        remote.issue key = some iss →
        iss.assignee = some a →
        a.login.getD "" = login →
        a.display.getD login = name →
        name ≠ "" →
        t.last_assignee.getD "" = prev →
        prev ≠ "" →
        name ≠ prev →
        t.creator_id = some c → c ≠ 0 →
        ((syncCycle cfg remote db now).2.count (Notif.reassigned c key name) = 1
          ∧ (∀ (tid' : Int) (lg : String), Notif.assigned tid' key lg ∉ (syncCycle cfg remote db now).2)
          ∧ ∃ t', getA ((syncCycle cfg remote db now).1.tasks.getD []) key = some t'
              ∧ t'.last_assignee = some name)) := by
  constructor
  · intro cfg remote db now key t iss a login name handle c tid
      hnd hget hopen hiss hass hlog hdisp hname hcache hc hc0 hmap hh hid ht0
    have hfocus := syncCycle_focus cfg remote db now key t hnd hget
    have hres : syncEntryResult cfg db.usernames remote key t now
        = processOpenTask cfg db.usernames iss (remote.comments key) key t now := by
      unfold syncEntryResult
      rw [if_neg (fun hcon => hcon hopen), hiss]
    rw [hres] at hfocus
    have ht2la : (lastStatusUpdate iss (statusUpdate iss t now)).last_assignee.getD "" = "" := by
      rw [lastStatusUpdate_last_assignee, statusUpdate_last_assignee]
      exact hcache
    have ht2c : (lastStatusUpdate iss (statusUpdate iss t now)).creator_id = some c := by
      rw [lastStatusUpdate_creator, statusUpdate_creator]
      exact hc
    have hAC : assigneeCheck cfg db.usernames key
        (lastStatusUpdate iss (statusUpdate iss t now)) (some a)
        = ({ lastStatusUpdate iss (statusUpdate iss t now) with
              last_assignee := some (a.display.getD (a.login.getD "")) },
           notify_assignee cfg.assigneeTelegramMap db.usernames key (a.login.getD "")) :=
      assigneeCheck_first cfg db.usernames key _ a c
        (by rw [hlog, hdisp]; exact hname) ht2la ht2c hc0
    have hNA : notify_assignee cfg.assigneeTelegramMap db.usernames key (a.login.getD "")
        = [Notif.assigned tid key login] := by
      rw [hlog]
      exact notify_assignee_eq cfg.assigneeTelegramMap db.usernames key login handle tid
        hmap hh hid ht0
    have hsnd := processOpenTask_snd_notifs cfg db.usernames iss (remote.comments key) key t now
    rw [hass, hAC, hNA] at hsnd
    refine ⟨?_, ?_, ?_⟩
    · rw [count_in_notifs_eq_filter (syncCycle cfg remote db now).2 key
        (Notif.assigned tid key login) rfl, hfocus.2, List.count_append, hsnd,
        List.count_append, List.count_append]
      rw [approvalCheck_count_assigned, commentCheck_count_assigned,
        fanout_ite_count_assigned]
      simp
    · intro c' nm hmem
      have hmf : Notif.reassigned c' key nm ∈
          (syncCycle cfg remote db now).2.filter (fun n => n.key == key) :=
        List.mem_filter.mpr ⟨hmem, by simp [Notif.key]⟩
      rw [hfocus.2] at hmf
      rcases List.mem_append.mp hmf with hmf | hmf
      · rw [hsnd] at hmf
        rcases List.mem_append.mp hmf with hmf | hmf
        · rcases List.mem_append.mp hmf with hmf | hmf
          · have := (approvalCheck_mem _ _ _ _ _ _ hmf).2
            simp [Notif.kind] at this
          · simp at hmf
        · have := (commentCheck_snd_mem _ _ _ _ hmf).2
          simp [Notif.kind] at this
      · split at hmf
        · rcases (fanoutEntry_mem _ _ _ hmf).2 with h | h <;> simp [Notif.kind] at h
        · simp at hmf
    · refine ⟨_, hfocus.1, ?_⟩
      rw [processOpenTask_fst_eq, hass, hAC, commentCheck_fst_last_assignee]
      rw [hlog, hdisp]
  · intro cfg remote db now key t iss a login name prev c
      hnd hget hopen hiss hass hlog hdisp hname hcache hprev hdiff hc hc0
    have hfocus := syncCycle_focus cfg remote db now key t hnd hget
    have hres : syncEntryResult cfg db.usernames remote key t now
        = processOpenTask cfg db.usernames iss (remote.comments key) key t now := by
      unfold syncEntryResult
      rw [if_neg (fun hcon => hcon hopen), hiss]
    rw [hres] at hfocus
    have ht2la : (lastStatusUpdate iss (statusUpdate iss t now)).last_assignee.getD "" = prev := by
      rw [lastStatusUpdate_last_assignee, statusUpdate_last_assignee]
      exact hcache
    have ht2c : (lastStatusUpdate iss (statusUpdate iss t now)).creator_id = some c := by
      rw [lastStatusUpdate_creator, statusUpdate_creator]
      exact hc
    have hAC : assigneeCheck cfg db.usernames key
        (lastStatusUpdate iss (statusUpdate iss t now)) (some a)
        = ({ lastStatusUpdate iss (statusUpdate iss t now) with
              last_assignee := some (a.display.getD (a.login.getD "")) },
           [.reassigned c key (a.display.getD (a.login.getD ""))]) :=
      assigneeCheck_reassign cfg db.usernames key _ a c prev
        (by rw [hlog, hdisp]; exact hname) ht2la hprev
        (by rw [hlog, hdisp]; exact hdiff) ht2c hc0
    have hsnd := processOpenTask_snd_notifs cfg db.usernames iss (remote.comments key) key t now
    rw [hass, hAC] at hsnd
    rw [hlog, hdisp] at hsnd
    refine ⟨?_, ?_, ?_⟩
    · rw [count_in_notifs_eq_filter (syncCycle cfg remote db now).2 key
        (Notif.reassigned c key name) rfl, hfocus.2, List.count_append, hsnd,
        List.count_append, List.count_append]
      rw [approvalCheck_count_reassigned, commentCheck_count_reassigned,
        fanout_ite_count_reassigned]
      simp
    · intro tid' lg hmem
      have hmf : Notif.assigned tid' key lg ∈
          (syncCycle cfg remote db now).2.filter (fun n => n.key == key) :=
        List.mem_filter.mpr ⟨hmem, by simp [Notif.key]⟩
      rw [hfocus.2] at hmf
      rcases List.mem_append.mp hmf with hmf | hmf
      · rw [hsnd] at hmf
        rcases List.mem_append.mp hmf with hmf | hmf
        · rcases List.mem_append.mp hmf with hmf | hmf
          · have := (approvalCheck_mem _ _ _ _ _ _ hmf).2
            simp [Notif.kind] at this
          · simp at hmf
        · have := (commentCheck_snd_mem _ _ _ _ hmf).2
          simp [Notif.kind] at this
      · split at hmf
        · rcases (fanoutEntry_mem _ _ _ hmf).2 with h | h <;> simp [Notif.kind] at h
        · simp at hmf
    · refine ⟨_, hfocus.1, ?_⟩
      rw [processOpenTask_fst_eq, hass, hAC, commentCheck_fst_last_assignee]
      rw [hlog, hdisp]

/-- C4 witness: both scenarios at a concrete store, remote and
configuration. -/
theorem c4_witness :
    (let t1 : TaskEntry :=
      { chat_id := 1, message_id := 1, summary := "s", queue := "HR", department := some "hr",
        creator_id := some 7, created_at := "t", status := "open" }
     let db1 : DbData :=
      { tasks := some [("HR-1", t1)], chats := none, users := [], usernames := [("ahandle", 42)] }
     let cfg : SyncConfig := ⟨"согласование", [], [("alog", "ahandle")]⟩
     let remote1 : Remote :=
      ⟨fun _ => some { status := none, assignee := some ⟨some "alog", some "A"⟩ }, fun _ => none⟩
     (syncCycle cfg remote1 db1 "n").2.count (Notif.assigned 42 "HR-1" "alog") = 1
      ∧ (∀ (c' : Int) (nm : String), Notif.reassigned c' "HR-1" nm ∉ (syncCycle cfg remote1 db1 "n").2)
      ∧ ∃ t', getA ((syncCycle cfg remote1 db1 "n").1.tasks.getD []) "HR-1" = some t'
          ∧ t'.last_assignee = some "A")
    ∧ (let t2 : TaskEntry :=
        { chat_id := 1, message_id := 1, summary := "s", queue := "HR", department := some "hr",
          creator_id := some 7, created_at := "t", status := "open", last_assignee := some "A" }
       let db2 : DbData :=
        { tasks := some [("HR-1", t2)], chats := none, users := [], usernames := [] }
       let cfg : SyncConfig := ⟨"согласование", [], []⟩
       let remote2 : Remote :=
        ⟨fun _ => some { status := none, assignee := some ⟨some "blog", some "B"⟩ }, fun _ => none⟩
       (syncCycle cfg remote2 db2 "n").2.count (Notif.reassigned 7 "HR-1" "B") = 1
        ∧ (∀ (tid' : Int) (lg : String), Notif.assigned tid' "HR-1" lg ∉ (syncCycle cfg remote2 db2 "n").2)
        ∧ ∃ t', getA ((syncCycle cfg remote2 db2 "n").1.tasks.getD []) "HR-1" = some t'
            ∧ t'.last_assignee = some "B") := by
  constructor
  · exact c4_assignee_change_detection.1 _ _ _ "n" "HR-1" _
      { status := none, assignee := some ⟨some "alog", some "A"⟩ } ⟨some "alog", some "A"⟩
      "alog" "A" "ahandle" 7 42
      (by decide) rfl rfl rfl rfl rfl rfl (by decide) rfl rfl (by decide)
      (by decide) (by decide) (by decide) (by decide)
  · exact c4_assignee_change_detection.2 _ _ _ "n" "HR-1" _
      { status := none, assignee := some ⟨some "blog", some "B"⟩ } ⟨some "blog", some "B"⟩
      "blog" "B" "A" 7
      (by decide) rfl rfl rfl rfl rfl rfl (by decide) rfl (by decide) (by decide) rfl (by decide)

/-! ### Comment-detector computation lemmas -/

theorem commentCheck_advanced (key : String) (t3 : TaskEntry) (l : List Comment)
    (hl : l ≠ []) (hgt : t3.last_comment_count.getD 0 < l.length) :
    (commentCheck key t3 (some l)).1.last_comment_count = some l.length := by
  unfold commentCheck
  dsimp only
  rw [if_neg hl]
  rw [if_pos hgt]

/-- Every new-comment notification the detector emits carries a preview
that does not contain the relay marker. -/
theorem commentCheck_no_marker (key : String) (t3 : TaskEntry)
    (cr : Option (List Comment)) :
    ∀ n ∈ (commentCheck key t3 cr).2, ∀ (c' : Int) (k' txt : String),
      n = Notif.newComment c' k' txt → containsS txt relayMarker = false := by
  intro n hn c' k' txt heqn
  unfold commentCheck at hn
  cases cr with
  | none => simp at hn
  | some l =>
    dsimp only at hn
    split at hn
    · simp at hn
    · split at hn
      · rcases List.mem_filterMap.mp hn with ⟨c, _, hc⟩
        split at hc
        · simp at hc
        · rename_i hcond
          split at hc
          · split at hc
            · simp at hc
              rw [← hc] at heqn
              injection heqn with h1 h2 h3
              rw [← h3]
              simpa using hcond
            · simp at hc
          · simp at hc
      · simp at hn

theorem isPrefixL_append_self : ∀ (p r : List Char), isPrefixL p (p ++ r) = true
  | [], _ => rfl
  | a :: as, r => by simp [isPrefixL, isPrefixL_append_self as r]

/-- Every comment body produced by the reply-comment relay begins with the
relay marker the sync job screens for. -/
theorem relayCommentText_starts (u b : String) :
    startsWithS (relayCommentText u b) relayMarker = true := by
  unfold startsWithS relayCommentText
  have hdata : (relayMarker ++ u ++ ":\n\n" ++ b).data
      = relayMarker.data ++ (u.data ++ ":\n\n".data ++ b.data) := by
    simp [String.data_append, List.append_assoc]
  rw [hdata]
  exact isPrefixL_append_self _ _

theorem marker_in_take (body : String)
    (h : startsWithS body relayMarker = true) :
    containsS (pyTake body 200) relayMarker = true := by
  unfold startsWithS at h
  unfold containsS pyTake
  apply containsL_of_isPrefixL
  exact isPrefixL_take h (by decide)

/-! ## Claim C6 -/

/-- C6: during new-comment detection for an open entity, any fetched
comment whose body begins with the system's relay marker is never
surfaced as a new-comment notification (its 200-character preview still
contains the marker, and every emitted preview does not), and the cached
comment count is still advanced to the new remote total. -/
theorem c6_relay_echo_prevention (cfg : SyncConfig) (remote : Remote) (db : DbData)
    (now key : String) (t : TaskEntry) (iss : IssueData) (l : List Comment)
    (hnd : ((db.tasks.getD []).map Prod.fst).Nodup)
    (hget : getA (db.tasks.getD []) key = some t)
    (hopen : t.status = "open")
    (hiss : remote.issue key = some iss)
    (hcm : remote.comments key = some l)
    (hl : l ≠ [])
    (hgt : t.last_comment_count.getD 0 < l.length) :
    (∀ c ∈ l, startsWithS c.text relayMarker = true →
        ∀ cr : Int, Notif.newComment cr key (pyTake c.text 200) ∉ (syncCycle cfg remote db now).2)
    ∧ ∃ t', getA ((syncCycle cfg remote db now).1.tasks.getD []) key = some t'
        ∧ t'.last_comment_count = some l.length := by
  have hfocus := syncCycle_focus cfg remote db now key t hnd hget
  have hres : syncEntryResult cfg db.usernames remote key t now
      = processOpenTask cfg db.usernames iss (remote.comments key) key t now := by
    unfold syncEntryResult
    rw [if_neg (fun hcon => hcon hopen), hiss]
  rw [hres] at hfocus
  constructor
  · intro c hcmem hstart cr hmem
    have hcontains := marker_in_take c.text hstart
    have hmf : Notif.newComment cr key (pyTake c.text 200) ∈
        (syncCycle cfg remote db now).2.filter (fun n => n.key == key) :=
      List.mem_filter.mpr ⟨hmem, by simp [Notif.key]⟩
    rw [hfocus.2] at hmf
    rcases List.mem_append.mp hmf with hmf | hmf
    · rw [processOpenTask_snd_notifs] at hmf
      rcases List.mem_append.mp hmf with hmf | hmf
      · rcases List.mem_append.mp hmf with hmf | hmf
        · have := (approvalCheck_mem _ _ _ _ _ _ hmf).2
          simp [Notif.kind] at this
        · rcases (assigneeCheck_snd_mem _ _ _ _ _ _ hmf).2 with h | h <;>
            simp [Notif.kind] at h
      · have := commentCheck_no_marker _ _ _ _ hmf cr key (pyTake c.text 200) rfl
        rw [hcontains] at this
        exact Bool.true_eq_false.mp this
    · split at hmf
      · rcases (fanoutEntry_mem _ _ _ hmf).2 with h | h <;> simp [Notif.kind] at h
      · simp at hmf
  · refine ⟨_, hfocus.1, ?_⟩
    rw [processOpenTask_fst_eq, hcm]
    apply commentCheck_advanced key _ l hl
    rw [assigneeCheck_fst_last_comment_count, lastStatusUpdate_last_comment_count,
      statusUpdate_last_comment_count]
    exact hgt

/-- C6 witness: one relayed comment beyond the cursor is skipped while the
cursor still advances. -/
theorem c6_witness :
    (let t0 : TaskEntry :=
      { chat_id := 1, message_id := 1, summary := "s", queue := "HR", department := some "hr",
        creator_id := some 7, created_at := "t", status := "open", last_comment_count := some 0 }
     let db : DbData := { tasks := some [("HR-1", t0)], chats := none, users := [], usernames := [] }
     let cfg : SyncConfig := ⟨"согласование", [], []⟩
     let cs : List Comment := [⟨"💬 Комментарий от @alice:\n\nprivet"⟩]
     let remote : Remote :=
      ⟨fun _ => some { status := none, assignee := none }, fun _ => some cs⟩
     (∀ c ∈ cs, startsWithS c.text relayMarker = true →
        ∀ cr : Int, Notif.newComment cr "HR-1" (pyTake c.text 200) ∉ (syncCycle cfg remote db "n").2)
      ∧ ∃ t', getA ((syncCycle cfg remote db "n").1.tasks.getD []) "HR-1" = some t'
          ∧ t'.last_comment_count = some 1) := by
  exact c6_relay_echo_prevention _ _ _ "n" "HR-1" _
    { status := none, assignee := none } [⟨"💬 Комментарий от @alice:\n\nprivet"⟩]
    (by decide) rfl rfl rfl rfl (by decide) (by decide)

end TrackerBot
